import Mathlib

/-!
Shallow embedding of the deterministic analysis pipeline of the
Capstone manufacturing-decision project
(`src/engine/rule_engine.py`, `src/engine/ml_models.py`,
`src/engine/validation.py`, `src/engine/decision_log.py`).

Machine reals are modelled by `ℚ` (the Python code uses floats; all the
decision logic is exact comparisons and arithmetic on small decimals).
Pandas data frames are modelled by lists of records; column presence that
is tested with `in df.columns` is modelled by an explicit flag.
-/

namespace Capstone

/-- Arithmetic mean of a list of rationals (pandas `Series.mean`).
On an empty list this is `0` (pandas yields NaN there); statements that
depend on the mean carry nonemptiness hypotheses. -/
def qmean (l : List ℚ) : ℚ := l.sum / l.length

/-- Maximum of a list of rationals (pandas `Series.max`); `0` on empty input. -/
def qmax : List ℚ → ℚ
  | [] => 0
  | [x] => x
  | x :: y :: xs => max x (qmax (y :: xs))

/-- Keep the first occurrence of every element, drop later duplicates.
This is Python's `dict.fromkeys(...)` de-duplication order. -/
def dedupFirst [DecidableEq α] : List α → List α
  | [] => []
  | x :: xs => x :: dedupFirst (xs.filter (fun y => decide (y ≠ x)))
termination_by l => l.length
decreasing_by
  simp only [List.length_cons]
  exact Nat.lt_succ_of_le (List.length_filter_le _ _)

/-- Substring test (Python's `t in s`), for nonempty needles. -/
def containsSub (s t : String) : Bool := decide ((s.splitOn t).length > 1)

/-- Number of occurrences of `a` in `l`. -/
def countOf [BEq α] (l : List α) (a : α) : ℕ := (l.filter (· == a)).length

/-- `Series.mode().iloc[0]`: the most frequent value; pandas sorts the modal
values, so ties are broken by the smallest string.  `""` on empty input
(pandas raises there; uses are guarded by nonemptiness). -/
def pandasMode (l : List String) : String :=
  (dedupFirst l).foldl
    (fun best c =>
      if countOf l c > countOf l best then c
      else if countOf l c == countOf l best && decide (c < best) then c
      else best)
    (l.headD "")

/-- Python `round(x, 2)`: banker's rounding (round half to even) to two
decimal places, exact on rationals. -/
def round2 (q : ℚ) : ℚ :=
  let s : ℚ := q * 100
  let f : ℤ := ⌊s⌋
  let frac : ℚ := s - f
  let r : ℤ :=
    if frac < 1/2 then f
    else if 1/2 < frac then f + 1
    else if f % 2 = 0 then f else f + 1
  (r : ℚ) / 100

/-- Python `max(lo, min(hi, x))`. -/
def clampQ (lo hi x : ℚ) : ℚ := max lo (min hi x)

/-! ## Rule engine data model (`rule_engine.py`) -/

/-- Severity scale; the source stores the strings "LOW" / "MEDIUM" /
"HIGH" / "CRITICAL". -/
inductive Severity
  | LOW
  | MEDIUM
  | HIGH
  | CRITICAL
deriving DecidableEq, Repr

/-- `severity_order` used in `RuleEngine.evaluate` (unknown strings map to 0;
they never occur, all constructed severities are the four above). -/
def sevOrder : Severity → ℕ
  | .LOW => 0
  | .MEDIUM => 1
  | .HIGH => 2
  | .CRITICAL => 3

/-- `RuleResult` dataclass.  The human-readable `condition` / `details`
strings are carried but their exact `f`-string formatting is abbreviated;
no claim depends on them. -/
structure RuleResult where
  rule_name : String
  triggered : Bool
  condition : String
  threshold : ℚ
  actual_value : ℚ
  action : String
  severity : Severity
  details : String := ""
deriving DecidableEq, Repr

/-- `RuleEngineOutput` dataclass. -/
structure RuleEngineOutput where
  all_results : List RuleResult := []
  triggered_rules : List RuleResult := []
  recommended_actions : List String := []
  overall_severity : Severity := .LOW
deriving Repr

/-- `DEFAULT_THRESHOLDS`; a `RuleEngine` instance merges caller overrides
over these defaults, modelled by passing a `Thresholds` value around. -/
structure Thresholds where
  machineUptimeCritical : ℚ := 75
  machineUptimeWatch : ℚ := 85
  inventoryCritical : ℚ := 70
  inventoryWatch : ℚ := 80
  workerAvailabilityTarget : ℚ := 92
  defectRateMax : ℚ := 2
  demandSpikeSigma : ℚ := 2
deriving Repr

/-- One scenario record (one row of `scenario_df`); numeric plant-metric
columns are always present in the simulated data. -/
structure Row where
  assemblyLine : String
  shift : String
  machineUptime : ℚ
  inventoryStatus : ℚ
  demandSUVs : ℚ
  workerAvailability : ℚ
  defectRate : ℚ
  energyConsumption : ℚ
  semiconductorAvailability : String
deriving DecidableEq, Repr

/-- The scenario data frame; `hasSemiconductorCol` models the
`"Semiconductor_Availability" in df.columns` test (that column is the one
whose presence the engine checks). -/
structure ScenarioData where
  rows : List Row
  hasSemiconductorCol : Bool := true
deriving Repr

/-- One entry of `context["event_details"]`. -/
structure EventDetail where
  eventType : String := ""
  description : String := ""
  impactAreas : String := "Unknown"
deriving Repr

/-- One line's record in `context["line_master"]`. -/
structure LineInfo where
  dailyCapacity : ℚ := 0
  utilization : ℚ := 80
  oee : ℚ := 0
  mttrHrs : ℚ := 0
deriving Repr

/-- `context["scenario_impact"]`; `affectedLine` defaults to `""`
(the source uses `.get("affected_line", "")`). -/
structure ScenarioImpact where
  affectedLine : String := ""
  workaroundOptions : List String := []
  actualUnitsLost : Option ℚ := none
  capacityLost : Option ℚ := none
  oeeUsed : Option ℚ := none
  utilizationUsed : Option ℚ := none
  mttrHrs : Option ℚ := none
deriving Repr

/-- One record of `context["suppliers"]`; `none` models a missing dict key
(the source substitutes defaults via `.get`). -/
structure Supplier where
  name : Option String := none
  idTag : Option String := none
  reliability : Option ℚ := none
  leadTimeDays : Option ℤ := none
deriving Repr

/-- The loosely-typed `context` mapping.  `Option` fields model keys that
may be absent (or `None`); list-valued keys absent from the mapping are
modelled by the empty list, matching the `.get(key, default)` call sites. -/
structure Context where
  eventDetails : List EventDetail := []
  lineMaster : Option (List (String × LineInfo)) := none
  scenarioImpact : Option ScenarioImpact := none
  suppliers : List Supplier := []
  scenario : Option String := none
  demand : Option ℚ := none
  shiftMaxOvertime : List (String × ℚ) := []
  mttrSensOrdersAtRisk : List String := []
deriving Repr

/-! ## Rule engine checks (`RuleEngine._check_*`) -/

/-- `df["Assembly_Line"].unique()` — first-occurrence order. -/
def uniqueLines (df : ScenarioData) : List String :=
  dedupFirst (df.rows.map (·.assemblyLine))

/-- `df["Shift"].unique()`. -/
def uniqueShifts (df : ScenarioData) : List String :=
  dedupFirst (df.rows.map (·.shift))

/-- `df[df["Assembly_Line"] == line][col].mean()`. -/
def lineMean (df : ScenarioData) (f : Row → ℚ) (line : String) : ℚ :=
  qmean ((df.rows.filter (fun r => r.assemblyLine == line)).map f)

/-- `df[df["Shift"] == shift][col].mean()`. -/
def shiftMean (df : ScenarioData) (f : Row → ℚ) (shift : String) : ℚ :=
  qmean ((df.rows.filter (fun r => r.shift == shift)).map f)

/-- `RuleEngine._check_machine_health`. -/
def checkMachineHealth (th : Thresholds) (df : ScenarioData) : List RuleResult :=
  (uniqueLines df).map (fun line =>
    let uptime := lineMean df (·.machineUptime) line
    let thr := th.machineUptimeCritical
    let fired := decide (uptime < thr)
    { rule_name := "Low Machine Health"
      triggered := fired
      condition := "Machine_Uptime_% for " ++ line ++ " vs threshold"
      threshold := thr
      actual_value := uptime
      action := "DISPATCH_MAINTENANCE"
      severity := if fired then .HIGH else .LOW
      details := "Assembly line " ++ line ++ " uptime vs maintenance threshold." })

/-- The five master-data line names that the source's line-name regular
expression `((?:HighRange|MedRange)_Line\d+)` matches in the simulated
repository data; the digit group is abstracted to these five names. -/
def masterLineNames : List String :=
  ["HighRange_Line1", "HighRange_Line2",
   "MedRange_Line1", "MedRange_Line2", "MedRange_Line3"]

/-- The `re.search` line extraction in `_check_line_breakdown`. -/
def extractLineName (desc : String) : Option String :=
  masterLineNames.find? (fun n => containsSub desc n)

/-- Failure-vocabulary test of `_check_line_breakdown`. -/
def isFailureEvent (ev : EventDetail) : Bool :=
  ev.eventType.toLower == "equipment_failure"
    || containsSub ev.description.toLower "breakdown"
    || containsSub ev.description.toLower "malfunction"

/-- `RuleEngine._check_line_breakdown`: for every failure event, one
CRITICAL maintenance result plus one HIGH reallocation companion. -/
def checkLineBreakdown (ctx : Context) : List RuleResult :=
  ctx.eventDetails.flatMap (fun ev =>
    if isFailureEvent ev then
      let lineName := extractLineName ev.description
      let affectedLabel := lineName.getD ev.impactAreas
      [{ rule_name := "Line Breakdown Detected"
         triggered := true
         condition := "Equipment failure on " ++ affectedLabel
         threshold := 0
         actual_value := 0
         action := "DISPATCH_MAINTENANCE"
         severity := .CRITICAL
         details := "Description: " ++ ev.description },
       { rule_name := "Line Reallocation Required"
         triggered := true
         condition := affectedLabel ++ " offline - must redistribute production"
         threshold := 0
         actual_value := 0
         action := "REALLOCATE_LINE"
         severity := .HIGH
         details := "Move production to alternate lines." }]
    else [])

/-- Demand column of the scenario data. -/
def demands (df : ScenarioData) : List ℚ := df.rows.map (·.demandSUVs)

/-- `df["Demand_SUVs"].mean()`. -/
def demandMean (df : ScenarioData) : ℚ := qmean (demands df)

/-- `df["Demand_SUVs"].max()`. -/
def demandPeak (df : ScenarioData) : ℚ := qmax (demands df)

/-- Sample variance (square of pandas `Series.std`, which uses `ddof=1`);
only meaningful for at least two records. -/
def demandVarS (df : ScenarioData) : ℚ :=
  ((demands df).map (fun x => (x - demandMean df) ^ 2)).sum
    / (((demands df).length : ℚ) - 1)

/-- The trigger test of `_check_demand_spike`: `peak > avg + sigma * std`.
`std` involves a square root, so the comparison is carried out on squares:
for nonnegative `sigma * std`, `peak > avg + sigma*std` holds iff
`peak > avg` and `(peak - avg)^2 > sigma^2 * var`.  With fewer than two
records pandas yields `std = NaN` and the `>` comparison is `False`. -/
def demandSpikeFired (th : Thresholds) (df : ScenarioData) : Bool :=
  decide (2 ≤ (demands df).length)
    && decide (demandPeak df > demandMean df)
    && decide ((demandPeak df - demandMean df) ^ 2
                > th.demandSpikeSigma ^ 2 * demandVarS df)

/-- `RuleEngine._check_demand_spike`.  The stored `threshold` field is the
display value `avg + sigma*std`, irrational in general; it is modelled as
`0` here since nothing downstream reads it (the validator only inspects
thresholds of uptime/machine/inventory rules). -/
def checkDemandSpike (th : Thresholds) (df : ScenarioData) : List RuleResult :=
  let fired := demandSpikeFired th df
  [{ rule_name := "Demand Spike Detection"
     triggered := fired
     condition := "Peak demand vs avg + sigma * std"
     threshold := 0
     actual_value := demandPeak df
     action := "INCREASE_SHIFT"
     severity := if fired then .HIGH else .LOW
     details := "Average and std of demand" }]

/-- `RuleEngine._check_inventory`. -/
def checkInventory (th : Thresholds) (df : ScenarioData) : List RuleResult :=
  (uniqueLines df).map (fun line =>
    let level := lineMean df (·.inventoryStatus) line
    let thr := th.inventoryCritical
    let fired := decide (level < thr)
    { rule_name := "Low Inventory"
      triggered := fired
      condition := "Inventory for " ++ line ++ " vs threshold"
      threshold := thr
      actual_value := level
      action := "RAISE_SUPPLY_ALERT"
      severity := if fired then .HIGH else .LOW
      details := "Assembly line " ++ line ++ " may face stockout risk." })

/-- `RuleEngine._check_supply_chain`: only runs when the
`Semiconductor_Availability` column exists. -/
def checkSupplyChain (df : ScenarioData) : List RuleResult :=
  if df.hasSemiconductorCol then
    let vals := df.rows.map (·.semiconductorAvailability)
    let mode := pandasMode vals
    let shortageCount := (vals.filter (· == "Shortage")).length
    let total := vals.length
    let fired := (mode == "Shortage" || mode == "Critical")
        || decide ((shortageCount : ℚ) > (total : ℚ) * (3/10))
    [{ rule_name := "Semiconductor Supply Risk"
       triggered := fired
       condition := "Semiconductor status " ++ mode
       threshold := 3/10
       actual_value := if total = 0 then 0 else (shortageCount : ℚ) / total
       action := "SWITCH_SUPPLIER"
       severity := if fired then .HIGH else .LOW
       details := "Distribution of semiconductor availability" }]
  else []

/-- `sim_to_master` mapping of `_check_overload`. -/
def simToMaster (simName : String) : String :=
  (([("HighRange_1", "HighRange_Line1"),
     ("HighRange_2", "HighRange_Line2"),
     ("MediumRange_1", "MedRange_Line1"),
     ("MediumRange_2", "MedRange_Line2"),
     ("MediumRange_3", "MedRange_Line3")] : List (String × String)).lookup
    simName).getD ""

/-- `RuleEngine._check_overload`. -/
def checkOverload (df : ScenarioData) (ctx : Context) : List RuleResult :=
  let lineMaster := ctx.lineMaster.getD []
  if lineMaster.isEmpty then []
  else
    let affectedLine := (ctx.scenarioImpact.getD {}).affectedLine
    (uniqueLines df).filterMap (fun simName =>
      let masterName := simToMaster simName
      if affectedLine ≠ ""
          ∧ (masterName = affectedLine ∨ simName = affectedLine) then none
      else
        let capInfo := lineMaster.lookup masterName
        let dailyCap : ℚ := (capInfo.map (·.dailyCapacity)).getD 0
        let utilization : ℚ := (capInfo.map (·.utilization)).getD 80
        if dailyCap > 0 then
          let fired := decide (utilization > 95)
          some
            { rule_name := "Line Overload"
              triggered := fired
              condition := simName ++ " utilization vs capacity"
              threshold := 95
              actual_value := utilization
              action := "REALLOCATE_LINE"
              severity := if fired then .HIGH else .LOW
              details := "Daily capacity for " ++ masterName }
        else none)

/-- `RuleEngine._check_workforce`. -/
def checkWorkforce (th : Thresholds) (df : ScenarioData) : List RuleResult :=
  (uniqueShifts df).map (fun shift =>
    let avail := shiftMean df (·.workerAvailability) shift
    let thr := th.workerAvailabilityTarget
    let fired := decide (avail < thr)
    { rule_name := "Workforce Below Target"
      triggered := fired
      condition := "Shift " ++ shift ++ " availability vs target"
      threshold := thr
      actual_value := avail
      action := "INCREASE_SHIFT"
      severity := if fired then .MEDIUM else .LOW
      details := "Consider overtime or temporary staff for Shift " ++ shift })

/-- `RuleEngine.evaluate`. -/
def evaluate (th : Thresholds) (df : ScenarioData) (ctx : Context) :
    RuleEngineOutput :=
  let results :=
    checkMachineHealth th df
      ++ checkLineBreakdown ctx
      ++ checkDemandSpike th df
      ++ checkInventory th df
      ++ checkSupplyChain df
      ++ checkOverload df ctx
      ++ checkWorkforce th df
  let triggered := results.filter (·.triggered)
  let actions := dedupFirst (triggered.map (·.action))
  let overall := triggered.foldl
    (fun acc r => if sevOrder r.severity > sevOrder acc then r.severity else acc)
    .LOW
  { all_results := results
    triggered_rules := triggered
    recommended_actions := actions
    overall_severity := overall }

/-! ## Prediction layer (`ml_models.py`) -/

/-- `ALL_LINES`: canonical line order. -/
def ALL_LINES : List String :=
  ["HighRange_1", "HighRange_2", "MediumRange_1", "MediumRange_2", "MediumRange_3"]

/-- `LINE_NAME_MAP`: data column values mapped to canonical names. -/
def LINE_NAME_MAP : List (String × String) :=
  [("HighRange_Line1", "HighRange_1"), ("HighRange_1", "HighRange_1"),
   ("HighRange_Line2", "HighRange_2"), ("HighRange_2", "HighRange_2"),
   ("MedRange_Line1", "MediumRange_1"), ("MediumRange_1", "MediumRange_1"),
   ("MedRange_Line2", "MediumRange_2"), ("MediumRange_2", "MediumRange_2"),
   ("MedRange_Line3", "MediumRange_3"), ("MediumRange_3", "MediumRange_3")]

/-- `_line_df_for_canonical`: the rows whose line name aliases to the
canonical line (empty when none match). -/
def lineRowsForCanonical (df : ScenarioData) (canonical : String) : List Row :=
  let possibleNames := (LINE_NAME_MAP.filter (fun kv => kv.2 == canonical)).map (·.1)
  df.rows.filter (fun r => possibleNames.contains r.assemblyLine)

/-- The `use_df = line_df if len(line_df) > 0 else df` fallback. -/
def useRows (df : ScenarioData) (canonical : String) : List Row :=
  let lineRows := lineRowsForCanonical df canonical
  if lineRows.length > 0 then lineRows else df.rows

/-- `BreakdownPrediction` dataclass (`risk_level` is the literal string). -/
structure BreakdownPrediction where
  line : String
  probability : ℚ
  risk_level : String
  contributing_factors : List String := []
deriving DecidableEq, Repr

/-- `DelayPrediction` dataclass (the `calculation_breakdown` dict is
abbreviated to its `method` tag). -/
structure DelayPrediction where
  risk_score : ℚ
  risk_level : String
  line : String := ""
  factors : List String := []
  method : String := ""
deriving DecidableEq, Repr

/-- `SupplierRisk` dataclass. -/
structure SupplierRisk where
  supplier_name : String
  score : ℚ
  risk_level : String
  lead_time_days : ℤ := 0
  reliability : ℚ := 0
deriving DecidableEq, Repr

/-- `MLPredictions` dataclass. -/
structure MLPredictions where
  breakdown_predictions : List BreakdownPrediction := []
  delay_prediction : Option DelayPrediction := none
  delay_predictions : List DelayPrediction := []
  supplier_risks : List SupplierRisk := []
  models_trained : Bool := false
deriving Repr

/-- The unrounded probability of the heuristic breakdown path:
`max(0.0, min(1.0, (100 - uptime) / 50))` on the mean line uptime. -/
def heuristicBreakdownRaw (df : ScenarioData) (line : String) : ℚ :=
  let uptime := qmean ((useRows df line).map (·.machineUptime))
  clampQ 0 1 ((100 - uptime) / 50)

/-- Bucketing used by `_heuristic_breakdown`:
`"HIGH" if prob > 0.5 else "MEDIUM" if prob > 0.25 else "LOW"`. -/
def heuristicBreakdownBucket (prob : ℚ) : String :=
  if prob > 1/2 then "HIGH" else if prob > 1/4 then "MEDIUM" else "LOW"

/-- Bucketing used by the trained paths `_predict_breakdown` and both delay
paths: `"HIGH" if v > 0.6 else "MEDIUM" if v > 0.3 else "LOW"`. -/
def bucket36 (v : ℚ) : String :=
  if v > 6/10 then "HIGH" else if v > 3/10 then "MEDIUM" else "LOW"

/-- `MLModelManager._heuristic_breakdown`.  The source appends the five
canonical lines in order and then sorts by `(canonical index, -prob)`;
the index component is strictly increasing, so the stable sort leaves the
list unchanged and is omitted. -/
def heuristicBreakdown (df : ScenarioData) : List BreakdownPrediction :=
  ALL_LINES.map (fun line =>
    let uptime := qmean ((useRows df line).map (·.machineUptime))
    let prob := clampQ 0 1 ((100 - uptime) / 50)
    { line := line
      probability := round2 prob
      risk_level := heuristicBreakdownBucket prob
      contributing_factors :=
        if uptime < 80 then ["Low uptime"] else [] })

/-- Feature vector averaged for the trained breakdown classifier:
means of uptime, worker availability, defect rate, energy. -/
def breakdownFeatures (df : ScenarioData) (line : String) : ℚ × ℚ × ℚ × ℚ :=
  let rows := useRows df line
  (qmean (rows.map (·.machineUptime)),
   qmean (rows.map (·.workerAvailability)),
   qmean (rows.map (·.defectRate)),
   qmean (rows.map (·.energyConsumption)))

/-- `MLModelManager._predict_breakdown` with the trained random-forest
classifier abstracted as a function `clf` from the averaged feature vector
to `predict_proba(...)[0, 1]`. -/
def predictBreakdown (clf : ℚ × ℚ × ℚ × ℚ → ℚ) (df : ScenarioData) :
    List BreakdownPrediction :=
  ALL_LINES.map (fun line =>
    let prob := clf (breakdownFeatures df line)
    let rows := useRows df line
    let uptime := qmean (rows.map (·.machineUptime))
    let defect := qmean (rows.map (·.defectRate))
    { line := line
      probability := round2 prob
      risk_level := bucket36 prob
      contributing_factors :=
        (if uptime < 80 then ["Low uptime"] else [])
          ++ (if defect > 3/2 then ["High defect rate"] else []) })

/-- Feature vector averaged for the trained delay regressor:
means of inventory, uptime, worker availability, defect rate. -/
def delayFeatures (df : ScenarioData) (line : String) : ℚ × ℚ × ℚ × ℚ :=
  let rows := useRows df line
  (qmean (rows.map (·.inventoryStatus)),
   qmean (rows.map (·.machineUptime)),
   qmean (rows.map (·.workerAvailability)),
   qmean (rows.map (·.defectRate)))

/-- Per-line semiconductor mode with whole-dataset fallback. -/
def semiModeFor (df : ScenarioData) (line : String) : String :=
  let rows := useRows df line
  if df.hasSemiconductorCol && rows.length > 0 then
    pandasMode (rows.map (·.semiconductorAvailability))
  else if df.hasSemiconductorCol && df.rows.length > 0 then
    pandasMode (df.rows.map (·.semiconductorAvailability))
  else "Available"

/-- `MLModelManager._predict_delay_per_line` with the trained regressor
abstracted as a function `reg` from the averaged feature vector to the
predicted KPI impact; `risk_score = max(0, min(1, 1 - kpi/10))`. -/
def predictDelayPerLine (reg : ℚ × ℚ × ℚ × ℚ → ℚ) (df : ScenarioData) :
    List DelayPrediction :=
  ALL_LINES.map (fun line =>
    let kpiImpact := reg (delayFeatures df line)
    let riskScore := max 0 (min 1 (1 - kpiImpact / 10))
    let inv := qmean ((useRows df line).map (·.inventoryStatus))
    { risk_score := round2 riskScore
      risk_level := bucket36 riskScore
      line := line
      factors := ["Inventory at " ++ toString inv,
                  "Semiconductor: " ++ semiModeFor df line]
      method := "ML (Gradient Boosting Regressor)" })

/-- `MLModelManager._heuristic_delay_per_line`: base 0.2, +0.3 for low
inventory, +0.3 / +0.15 for semiconductor Shortage / Delayed, capped at 1. -/
def heuristicDelayPerLine (df : ScenarioData) : List DelayPrediction :=
  ALL_LINES.map (fun line =>
    let rows := useRows df line
    let inv : ℚ := if rows.length = 0 then 80
      else qmean (rows.map (·.inventoryStatus))
    let semiMode := semiModeFor df line
    let riskScore : ℚ :=
      min 1 ((2/10) + (if inv < 75 then 3/10 else 0)
        + (if semiMode == "Shortage" then 3/10
           else if semiMode == "Delayed" then 15/100 else 0))
    { risk_score := round2 riskScore
      risk_level := bucket36 riskScore
      line := line
      factors := ["Inventory at " ++ toString inv,
                  "Semiconductor: " ++ semiMode]
      method := "Heuristic" })

/-- Insertion preserving descending score order; on equal scores the
incoming (originally earlier) element goes first, matching the stability
of Python's `sorted(..., reverse=True)`. -/
def insertByScoreDesc (r : SupplierRisk) : List SupplierRisk → List SupplierRisk
  | [] => [r]
  | x :: xs =>
    if r.score ≥ x.score then r :: x :: xs else x :: insertByScoreDesc r xs

/-- Stable descending sort by `score` (`sorted(risks, key=score, reverse=True)`). -/
def sortByScoreDesc : List SupplierRisk → List SupplierRisk
  | [] => []
  | x :: xs => insertByScoreDesc x (sortByScoreDesc xs)

/-- The per-supplier record built by `_heuristic_supplier_risk`:
`score = max(0, min(100, reliability - 1.5 * lead_time_days))`, rounded to
two decimals for display; bands LOW (score >= 80), MEDIUM (>= 60), HIGH. -/
def supplierRiskOf (s : Supplier) : SupplierRisk :=
  let reliability := s.reliability.getD 85
  let lead := s.leadTimeDays.getD 5
  let score := clampQ 0 100 (reliability - (lead : ℚ) * (3/2))
  { supplier_name := (s.name.getD (s.idTag.getD "Unknown"))
    score := round2 score
    risk_level := if score ≥ 80 then "LOW"
      else if score ≥ 60 then "MEDIUM" else "HIGH"
    lead_time_days := lead
    reliability := reliability }

/-- `MLModelManager._heuristic_supplier_risk`: only the first 15 supplier
records are scored (`suppliers[:15]`), then sorted descending by score. -/
def heuristicSupplierRisk (ctx : Context) : List SupplierRisk :=
  sortByScoreDesc ((ctx.suppliers.take 15).map supplierRiskOf)

/-- The trained models held by `MLModelManager`, abstracted as optional
functions (the source stores fitted sklearn estimators). -/
structure Models where
  breakdownModel : Option (ℚ × ℚ × ℚ × ℚ → ℚ) := none
  delayModel : Option (ℚ × ℚ × ℚ × ℚ → ℚ) := none
  trained : Bool := false

/-- Worst-line delay prediction: `max(delay_list, key=risk_score)`;
Python's `max` returns the first element attaining the maximum. -/
def maxByRiskScore : List DelayPrediction → Option DelayPrediction
  | [] => none
  | x :: xs =>
    match maxByRiskScore xs with
    | none => some x
    | some m => if m.risk_score > x.risk_score then some m else some x

/-- `MLModelManager.predict`. -/
def mlPredict (models : Models) (df : ScenarioData) (ctx : Context) :
    MLPredictions :=
  if !models.trained then
    let delayList := heuristicDelayPerLine df
    { breakdown_predictions := heuristicBreakdown df
      delay_predictions := delayList
      delay_prediction := maxByRiskScore delayList
      supplier_risks := heuristicSupplierRisk ctx
      models_trained := false }
  else
    let breakdowns := match models.breakdownModel with
      | some clf => predictBreakdown clf df
      | none => heuristicBreakdown df
    let delayList := match models.delayModel with
      | some reg => predictDelayPerLine reg df
      | none => heuristicDelayPerLine df
    { breakdown_predictions := breakdowns
      delay_predictions := delayList
      delay_prediction := maxByRiskScore delayList
      supplier_risks := heuristicSupplierRisk ctx
      models_trained := true }

/-! ## Validator (`validation.py`) -/

/-- `ValidationCheck` dataclass. -/
structure ValidationCheck where
  name : String
  passed : Bool
  detail : String
  severity : String := "info"
deriving DecidableEq, Repr

/-- `ValidationReport` dataclass; `overall_passed` is recomputed from the
checks exactly as the incremental `add` maintains it: false iff some
failed check has severity "error". -/
structure ValidationReport where
  checks : List ValidationCheck := []
  overall_passed : Bool := true
deriving Repr

/-- `ValidationReport.add` flips `overall_passed` on a failed error check. -/
def reportAdd (rep : ValidationReport) (c : ValidationCheck) : ValidationReport :=
  { checks := rep.checks ++ [c]
    overall_passed := rep.overall_passed && !(!c.passed && c.severity == "error") }

/-- Part 1 of `validate_analysis`: threshold direction checks for
uptime/machine and inventory rules among the triggered rules. -/
def ruleChecks (ruleOutput : RuleEngineOutput) : List ValidationCheck :=
  ruleOutput.triggered_rules.flatMap (fun r =>
    if r.triggered then
      let nameLower := r.rule_name.toLower
      if containsSub nameLower "uptime" || containsSub nameLower "machine" then
        [{ name := "Rule threshold: " ++ r.rule_name
           passed := decide (r.actual_value < r.threshold)
           detail := "actual vs threshold"
           severity := if r.actual_value < r.threshold then "info" else "warning" }]
      else if containsSub nameLower "inventory" then
        [{ name := "Rule threshold: " ++ r.rule_name
           passed := decide (r.actual_value < r.threshold)
           detail := "actual vs threshold"
           severity := if r.actual_value < r.threshold then "info" else "warning" }]
      else []
    else [])

/-- The in-range check for the (worst-line) delay prediction. -/
def delayRangeChecks (mlOutput : MLPredictions) : List ValidationCheck :=
  match mlOutput.delay_prediction with
  | none => []
  | some d =>
    [{ name := "Delay risk in range"
       passed := decide (0 ≤ d.risk_score ∧ d.risk_score ≤ 1)
       detail := "delay risk score"
       severity := if 0 ≤ d.risk_score ∧ d.risk_score ≤ 1 then "info" else "error" }]

/-- Part 2's breakdown loop: adds one range check per prediction, stopping
once the report holds at least five checks (`break` fires after the add).
`already` counts the checks in the report before the loop. -/
def breakdownRangeChecks (already : ℕ) :
    List BreakdownPrediction → List ValidationCheck
  | [] => []
  | bp :: rest =>
    let c : ValidationCheck :=
      { name := "Breakdown prob for " ++ bp.line ++ " in range"
        passed := decide (0 ≤ bp.probability ∧ bp.probability ≤ 1)
        detail := "probability"
        severity := if 0 ≤ bp.probability ∧ bp.probability ≤ 1 then "info"
          else "error" }
    if already + 1 ≥ 5 then [c]
    else c :: breakdownRangeChecks (already + 1) rest

/-- The recommendation records consumed by the validator and the decision
log: a dict whose string fields may be absent (`.get` defaults). -/
structure Rec where
  action : Option String := none
  recommendation : Option String := none
  sourceAgent : Option String := none
  agent : Option String := none
  reasoning : Option String := none
  why : Option String := none
  expectedKpiImpact : Option String := none
  kpiImpact : Option String := none
  expectedImpact : Option String := none
deriving Repr

/-- Part 3 of `validate_analysis`: informational sanity notes on the first
five recommendations.  All have severity "info" and `passed = True`. -/
def recChecks (recommendations : List Rec) : List ValidationCheck :=
  (recommendations.take 5).flatMap (fun rec =>
    let action := rec.action.getD (rec.recommendation.getD "")
    let actionLower := action.toLower
    (if containsSub actionLower "production" || containsSub actionLower "realloc"
     then [{ name := "Rec production/realloc", passed := true,
             detail := action, severity := "info" }]
     else [])
      ++ (if containsSub actionLower "overtime" || containsSub actionLower "shift"
          then [{ name := "Rec overtime", passed := true,
                  detail := "max overtime from master", severity := "info" }]
          else []))

/-- Part 4 of `validate_analysis`: required context keys
`scenario`, `line_master`, `demand` (missing keys are a warning). -/
def contextCheck (ctx : Context) : ValidationCheck :=
  let missing :=
    (if ctx.scenario.isNone then ["scenario"] else [])
      ++ (if ctx.lineMaster.isNone then ["line_master"] else [])
      ++ (if ctx.demand.isNone then ["demand"] else [])
  { name := "Context completeness"
    passed := missing.length = 0
    detail := "required keys"
    severity := if missing.length = 0 then "info" else "warning" }

/-- Python truthiness of an optional number (`None` and `0` are falsy). -/
def truthyQ : Option ℚ → Bool
  | none => false
  | some q => q ≠ 0

/-- The value the validator recomputes in part 5:
`round(cap * (oee/100) * (util/100) * (mttr/24), 2)` with defaults
`oee_used = 85`, `utilization_used = 100`. -/
def unitsLostExpected (si : ScenarioImpact) : ℚ :=
  let cap := si.capacityLost.getD 0
  let oee := si.oeeUsed.getD 85
  let util := si.utilizationUsed.getD 100
  let mttr := si.mttrHrs.getD 0
  round2 (cap * (oee / 100) * (util / 100) * (mttr / 24))

/-- Part 5 of `validate_analysis`: the units-lost formula check, emitted
only when `actual_units_lost_during_outage` is not `None` and
`capacity_lost` and `mttr_hrs` are truthy; mismatch beyond `0.1` is an
error. -/
def unitsLostChecks (ctx : Context) : List ValidationCheck :=
  let si := ctx.scenarioImpact.getD {}
  if si.actualUnitsLost.isSome && truthyQ si.capacityLost && truthyQ si.mttrHrs
  then
    let expected := unitsLostExpected si
    let actual := si.actualUnitsLost.getD 0
    let formulaOk := decide (|expected - actual| < 1/10)
    [{ name := "Units lost formula"
       passed := formulaOk
       detail := "expected vs supplied units lost"
       severity := if formulaOk then "info" else "error" }]
  else []

/-- `validate_analysis`: the checks in source order, with `overall_passed`
false iff a failed error-severity check was added. -/
def validateAnalysis (ruleOutput : RuleEngineOutput) (mlOutput : MLPredictions)
    (recommendations : List Rec) (ctx : Context) : ValidationReport :=
  let part12 := ruleChecks ruleOutput ++ delayRangeChecks mlOutput
  let allChecks :=
    part12
      ++ breakdownRangeChecks part12.length mlOutput.breakdown_predictions
      ++ recChecks recommendations
      ++ [contextCheck ctx]
      ++ unitsLostChecks ctx
  (allChecks.foldl reportAdd {})

/-! ## Decision log (`decision_log.py`) -/

/-- Decimal representation of a natural number (digits via `Nat.digits`,
most significant first; `"0"` for zero). -/
def natDec (n : ℕ) : String :=
  if n = 0 then "0" else ⟨(Nat.digits 10 n).reverse.map Nat.digitChar⟩

/-- Python's `f"{n:02d}"`: left-pad with one zero below 10. -/
def pad2 (n : ℕ) : String := if n < 10 then "0" ++ natDec n else natDec n

/-- `f"DEC-{run_id}-{counter:02d}"`. -/
def mkDecisionId (runId : String) (n : ℕ) : String :=
  "DEC-" ++ runId ++ "-" ++ pad2 n

/-- The rule excerpt dict stored in `rules_triggered`. -/
structure RuleExcerpt where
  rule : String
  condition : String
  threshold : ℚ
  actual : ℚ
  action : String
  severity : Severity
deriving DecidableEq, Repr

/-- Excerpt built in the `all_rule_dicts` pre-pass. -/
def ruleExcerptOf (r : RuleResult) : RuleExcerpt :=
  { rule := r.rule_name, condition := r.condition, threshold := r.threshold
    actual := r.actual_value, action := r.action, severity := r.severity }

/-- Breach string built in the `all_breach_strings` pre-pass. -/
def breachStringOf (r : RuleResult) : String :=
  r.rule_name ++ ": " ++ r.condition

/-- The heterogeneous `entry_ml` dict, one optional field per key the
source may insert. -/
structure EntryML where
  modelsTrained : Bool
  breakdown : Option (List (String × ℚ × String)) := none
  delay : Option (ℚ × String × List String) := none
  supplierRisks : Option (List (String × ℚ × String)) := none
  breakdownTop : Option (String × ℚ) := none
  delayRisk : Option ℚ := none
deriving Repr

/-- `DecisionEntry` dataclass. -/
structure DecisionEntry where
  decision_id : String
  timestamp : String
  scenario : String
  rules_triggered : List RuleExcerpt
  thresholds_breached : List String
  ml_predictions : EntryML
  recommendation : String
  reasoning : String
  supporting_indicators : List String
  agent_source : String
  expected_kpi_impact : String
  logic_trace : List String := []
deriving Repr

/-- `DecisionLog` dataclass; `run_id` (a uuid fragment) and the entry
timestamps are nondeterministic in the source and are passed in here. -/
structure DecisionLog where
  entries : List DecisionEntry := []
  run_id : String := ""
  run_timestamp : String := ""
  scenario : String := ""
deriving Repr

/-- `_ACTION_KPI_MAP`, in source (insertion) order. -/
def ACTION_KPI_MAP : List (String × String) :=
  [("DISPATCH_MAINTENANCE",
    "Line Downtime: +2-8 hrs; On-time Delivery: -5 to -15%"),
   ("REALLOCATE_LINE",
    "On-time Delivery: -3 to -10%; Production Efficiency: -15 to -25%"),
   ("SWITCH_SUPPLIER",
    "Lead Time: +2-5 days; Inventory Cost: +5 to +10%"),
   ("INCREASE_SHIFT",
    "Overtime Cost: +12 to +18%; Worker Availability: +2 to +5%"),
   ("RAISE_SUPPLY_ALERT",
    "Inventory Risk: stockout within 2-4 days if not addressed")]

/-- Lower-cased action tag with underscores replaced by spaces
(`rd["action"].lower().replace("_", " ")`). -/
def actionWords (tag : String) : String :=
  (tag.toLower).replace "_" " "

/-- `DecisionLog._derive_with_context`. -/
def deriveWithContext (base : String) (si : ScenarioImpact)
    (ordersAtRisk : List String) : String :=
  if truthyQ si.actualUnitsLost then base ++ " | Units lost during outage"
  else if ordersAtRisk ≠ [] then base ++ " | Orders at risk"
  else base

/-- `DecisionLog._derive_kpi_impact`.  The inner loop over triggered rules
is dead code in the source (its guard repeats the substring test that the
outer branch has just seen fail), so `impacts` is the first table entry
whose action words occur in the recommendation text. -/
def deriveKpiImpact (action : String) (ruleOutput : RuleEngineOutput)
    (ctx : Context) : String :=
  let actionLower := action.toLower
  let si := ctx.scenarioImpact.getD {}
  let ordersAtRisk := ctx.mttrSensOrdersAtRisk
  match ACTION_KPI_MAP.find?
      (fun kv => containsSub actionLower (actionWords kv.1)) with
  | some kv =>
    let base := kv.2
    let base :=
      if truthyQ si.mttrHrs
          && (containsSub actionLower "maintenance"
              || containsSub actionLower "breakdown"
              || containsSub actionLower "repair")
          && truthyQ si.actualUnitsLost
      then base ++ " | Units lost during outage" else base
    if ordersAtRisk ≠ [] && containsSub actionLower "realloc"
    then base ++ " | Orders at risk" else base
  | none =>
    if containsSub actionLower "repair" || containsSub actionLower "maintenance"
        || containsSub actionLower "breakdown" then
      deriveWithContext ((ACTION_KPI_MAP.get ⟨0, by decide⟩).2) si ordersAtRisk
    else if containsSub actionLower "realloc"
        || containsSub actionLower "production"
        || containsSub actionLower "line" then
      deriveWithContext ((ACTION_KPI_MAP.get ⟨1, by decide⟩).2) si ordersAtRisk
    else if containsSub actionLower "supplier"
        || containsSub actionLower "expedit"
        || containsSub actionLower "semiconductor" then
      (ACTION_KPI_MAP.get ⟨2, by decide⟩).2
    else if containsSub actionLower "overtime"
        || containsSub actionLower "shift"
        || containsSub actionLower "workforce"
        || containsSub actionLower "worker" then
      (ACTION_KPI_MAP.get ⟨3, by decide⟩).2
    else if containsSub actionLower "inventory"
        || containsSub actionLower "reorder"
        || containsSub actionLower "stock" then
      (ACTION_KPI_MAP.get ⟨4, by decide⟩).2
    else "Refer to KPI Summary for projected impact"

/-- The rule-relevance test applied per recommendation
(substring match of action tag / rule name, or agent-name affinity). -/
def isRelevantRule (actionLower agentLower : String) (r : RuleResult) : Bool :=
  containsSub actionLower (actionWords r.action)
    || containsSub actionLower r.rule_name.toLower
    || (containsSub agentLower "maintenance" && r.action == "DISPATCH_MAINTENANCE")
    || (containsSub agentLower "production" && r.action == "REALLOCATE_LINE")
    || (containsSub agentLower "inventory"
        && (r.action == "RAISE_SUPPLY_ALERT" || r.action == "SWITCH_SUPPLIER"))
    || (containsSub agentLower "workforce" && r.action == "INCREASE_SHIFT")
    || (containsSub agentLower "supply" && r.action == "SWITCH_SUPPLIER")
    || (containsSub agentLower "health" && r.action == "DISPATCH_MAINTENANCE")

/-- Python `max(rules, key=severity_order)`: first element attaining the
maximal severity. -/
def firstMaxBySeverity : List RuleResult → Option RuleResult
  | [] => none
  | x :: xs =>
    match firstMaxBySeverity xs with
    | none => some x
    | some m => if sevOrder m.severity > sevOrder x.severity then some m else some x

/-- The body of the per-recommendation loop of `DecisionLog.from_analysis`:
builds one `DecisionEntry`; `nEntries` is `len(log.entries)` at the time of
the append. -/
def buildEntry (runId timestamp scenario : String)
    (ruleOutput : RuleEngineOutput) (mlOutput : MLPredictions)
    (ctx : Context) (nEntries : ℕ) (rec : Rec) : DecisionEntry :=
  let action := rec.action.getD (rec.recommendation.getD "N/A")
  let agent := rec.sourceAgent.getD (rec.agent.getD "Orchestrator")
  let reasoning := rec.reasoning.getD (rec.why.getD "")
  let kpi0 := rec.expectedKpiImpact.getD
    (rec.kpiImpact.getD (rec.expectedImpact.getD ""))
  let kpi := if kpi0 = "" then deriveKpiImpact action ruleOutput ctx else kpi0
  let actionLower := action.toLower
  let agentLower := agent.toLower
  let relevant :=
    ruleOutput.triggered_rules.filter (isRelevantRule actionLower agentLower)
  let relevant :=
    if relevant.isEmpty && !ruleOutput.triggered_rules.isEmpty then
      match firstMaxBySeverity ruleOutput.triggered_rules with
      | some top => [top]
      | none => []
    else relevant
  let entryMlBreakdown :=
    if (containsSub actionLower "breakdown" || containsSub actionLower "maintenance"
        || containsSub actionLower "repair" || containsSub agentLower "health")
        && !mlOutput.breakdown_predictions.isEmpty then
      some ((mlOutput.breakdown_predictions.take 3).map
        (fun b => (b.line, b.probability, b.risk_level)))
    else none
  let entryMlDelay :=
    if containsSub actionLower "delay" || containsSub agentLower "inventory"
        || containsSub agentLower "supply" || containsSub actionLower "reorder"
    then mlOutput.delay_prediction.map
      (fun d => (d.risk_score, d.risk_level, d.factors))
    else none
  let entryMlSuppliers :=
    if (containsSub actionLower "supplier" || containsSub agentLower "supply")
        && !mlOutput.supplier_risks.isEmpty then
      some ((mlOutput.supplier_risks.take 3).map
        (fun s => (s.supplier_name, s.score, s.risk_level)))
    else none
  let nothingMatched :=
    entryMlBreakdown.isNone && entryMlDelay.isNone && entryMlSuppliers.isNone
  let entryMl : EntryML :=
    { modelsTrained := mlOutput.models_trained
      breakdown := entryMlBreakdown
      delay := entryMlDelay
      supplierRisks := entryMlSuppliers
      breakdownTop :=
        if nothingMatched then
          (mlOutput.breakdown_predictions.head?).map (fun b => (b.line, b.probability))
        else none
      delayRisk :=
        if nothingMatched then mlOutput.delay_prediction.map (·.risk_score)
        else none }
  let supporting0 :=
    ruleOutput.triggered_rules.filterMap (fun r =>
      if containsSub actionLower (actionWords r.action)
          || containsSub actionLower r.rule_name.toLower then
        some ("Rule fired: " ++ breachStringOf r)
      else none)
  let supporting1 := supporting0
    ++ (if !mlOutput.breakdown_predictions.isEmpty
           && (containsSub actionLower "breakdown"
               || containsSub actionLower "maintenance"
               || containsSub agentLower "health")
        then ["ML breakdown risk (top line)"] else [])
    ++ (if mlOutput.delay_prediction.isSome
           && (containsSub actionLower "delay"
               || containsSub agentLower "inventory"
               || containsSub agentLower "supply")
        then ["ML delay risk"] else [])
  let supporting :=
    if supporting1.isEmpty then
      (if !mlOutput.breakdown_predictions.isEmpty
       then ["ML breakdown risk (top)"] else [])
        ++ (if mlOutput.delay_prediction.isSome then ["ML delay risk"] else [])
    else supporting1
  let si := ctx.scenarioImpact.getD {}
  let logicTrace :=
    relevant.map (fun r => "Rule trace: " ++ breachStringOf r)
      ++ ((entryMl.breakdown.getD []).take 2).map
          (fun b => "ML breakdown: " ++ b.1)
      ++ (match entryMl.delay with
          | some _ => ["ML delay risk line"]
          | none => [])
      ++ (if truthyQ si.mttrHrs || truthyQ si.actualUnitsLost
          then ["Scenario: MTTR and units lost"] else [])
  { decision_id := mkDecisionId runId (nEntries + 1)
    timestamp := timestamp
    scenario := scenario
    rules_triggered := relevant.map ruleExcerptOf
    thresholds_breached := relevant.map breachStringOf
    ml_predictions := entryMl
    recommendation := action
    reasoning := reasoning
    supporting_indicators := supporting
    agent_source := agent
    expected_kpi_impact := kpi
    logic_trace := logicTrace }

/-- `DecisionLog.from_analysis`: one entry appended per recommendation, in
input order; never partial on well-typed recommendation records (malformed
fields are `Option` values substituted by `.get` defaults). -/
def fromAnalysisStep (runId timestamp scenario : String)
    (ruleOutput : RuleEngineOutput) (mlOutput : MLPredictions)
    (ctx : Context) (log : DecisionLog) (rec : Rec) : DecisionLog :=
  { log with
    entries := log.entries
      ++ [buildEntry runId timestamp scenario ruleOutput mlOutput ctx
            log.entries.length rec] }

def fromAnalysis (runId timestamp scenario : String)
    (ruleOutput : RuleEngineOutput) (mlOutput : MLPredictions)
    (recommendations : List Rec) (ctx : Context) : DecisionLog :=
  recommendations.foldl
    (fromAnalysisStep runId timestamp scenario ruleOutput mlOutput ctx)
    { entries := [], run_id := runId, run_timestamp := timestamp
      scenario := scenario }

/-! ## Helper lemmas -/

theorem mem_dedupFirst [DecidableEq α] (l : List α) (a : α) :
    a ∈ dedupFirst l ↔ a ∈ l := by
  induction l using dedupFirst.induct with
  | case1 => simp [dedupFirst]
  | case2 x xs ih =>
    simp only [dedupFirst, List.mem_cons, ih, List.mem_filter,
      decide_eq_true_eq]
    constructor
    · rintro (rfl | ⟨h, _⟩)
      · left; rfl
      · right; exact h
    · rintro (rfl | h)
      · left; rfl
      · by_cases hx : a = x
        · left; exact hx
        · right; exact ⟨h, hx⟩

theorem nodup_dedupFirst [DecidableEq α] (l : List α) : (dedupFirst l).Nodup := by
  induction l using dedupFirst.induct with
  | case1 => simp [dedupFirst]
  | case2 x xs ih =>
    simp only [dedupFirst, List.nodup_cons]
    refine ⟨fun hmem => ?_, ih⟩
    rw [mem_dedupFirst] at hmem
    simp [List.mem_filter] at hmem

theorem indexOf_filter_lt [DecidableEq α] (p : α → Bool) :
    ∀ (l : List α) (a b : α), a ∈ l.filter p → b ∈ l.filter p →
      (l.filter p).indexOf a < (l.filter p).indexOf b →
      l.indexOf a < l.indexOf b := by
  intro l
  induction l with
  | nil => intro a b ha; simp at ha
  | cons c tl ih =>
    intro a b ha hb hlt
    by_cases hpc : p c
    · rw [List.filter_cons_of_pos hpc] at ha hb hlt
      by_cases hac : c = a
      · subst hac
        rw [List.indexOf_cons_self] at hlt ⊢
        have hbc : c ≠ b := by
          rintro rfl
          simp [List.indexOf_cons_self] at hlt
        rw [List.indexOf_cons_ne _ hbc]
        exact Nat.succ_pos _
      · have hb' : c ≠ b ∨ c = b := by tauto
        rcases hb' with hbc | hbc
        · rw [List.indexOf_cons_ne _ hac, List.indexOf_cons_ne _ hbc] at hlt
          have ha2 : a ∈ tl.filter p := by
            rcases List.mem_cons.mp ha with h | h
            · exact absurd h.symm hac
            · exact h
          have hb2 : b ∈ tl.filter p := by
            rcases List.mem_cons.mp hb with h | h
            · exact absurd h.symm hbc
            · exact h
          rw [List.indexOf_cons_ne _ hac, List.indexOf_cons_ne _ hbc]
          exact Nat.succ_lt_succ (ih a b ha2 hb2 (Nat.lt_of_succ_lt_succ hlt))
        · subst hbc
          rw [List.indexOf_cons_self] at hlt
          omega
    · rw [List.filter_cons_of_neg hpc] at ha hb hlt
      have hac : c ≠ a := by
        rintro rfl
        have := List.of_mem_filter ha
        exact hpc (by simpa using this)
      have hbc : c ≠ b := by
        rintro rfl
        have := List.of_mem_filter hb
        exact hpc (by simpa using this)
      rw [List.indexOf_cons_ne _ hac, List.indexOf_cons_ne _ hbc]
      exact Nat.succ_lt_succ (ih a b ha hb hlt)

theorem dedupFirst_pairwise_indexOf [DecidableEq α] (l : List α) :
    (dedupFirst l).Pairwise (fun a b => l.indexOf a < l.indexOf b) := by
  induction l using dedupFirst.induct with
  | case1 => simp [dedupFirst]
  | case2 x xs ih =>
    rw [dedupFirst]
    refine List.Pairwise.cons ?_ ?_
    · intro b hb
      rw [mem_dedupFirst, List.mem_filter, decide_eq_true_eq] at hb
      rw [List.indexOf_cons_self, List.indexOf_cons_ne _ (Ne.symm hb.2)]
      exact Nat.succ_pos _
    · refine List.Pairwise.imp_of_mem ?_ ih
      intro a b ha hb hlt
      rw [mem_dedupFirst] at ha hb
      have ha' := List.mem_filter.mp ha
      have hb' := List.mem_filter.mp hb
      rw [decide_eq_true_eq] at ha' hb'
      rw [List.indexOf_cons_ne _ (Ne.symm ha'.2),
        List.indexOf_cons_ne _ (Ne.symm hb'.2)]
      exact Nat.succ_lt_succ (indexOf_filter_lt _ xs a b ha hb hlt)

theorem round2_nonneg {q : ℚ} (hq : 0 ≤ q) : 0 ≤ round2 q := by
  unfold round2
  dsimp only
  have hf : (0 : ℤ) ≤ ⌊q * 100⌋ := Int.floor_nonneg.mpr (by linarith)
  have h100 : (0 : ℚ) < 100 := by norm_num
  split <;> [skip; split] <;> [skip; skip; split] <;>
    · apply div_nonneg _ (le_of_lt h100)
      have hfq : (0 : ℚ) ≤ (⌊q * 100⌋ : ℚ) := by exact_mod_cast hf
      push_cast
      linarith

theorem round2_le_one {q : ℚ} (hq : q ≤ 1) : round2 q ≤ 1 := by
  unfold round2
  dsimp only
  have hs : q * 100 ≤ 100 := by linarith
  have hfle : ⌊q * 100⌋ ≤ 100 := by
    have := Int.floor_le_floor hs
    simpa using this
  have hfloor : (⌊q * 100⌋ : ℚ) ≤ q * 100 := Int.floor_le _
  rw [div_le_one (by norm_num : (0:ℚ) < 100)]
  split
  · exact_mod_cast hfle
  · rename_i hnlt
    have h99 : ⌊q * 100⌋ < 100 := by
      push_neg at hnlt
      have : (⌊q * 100⌋ : ℚ) ≤ q * 100 - 1/2 := by linarith
      have hlt : (⌊q * 100⌋ : ℚ) < 100 := by linarith
      exact_mod_cast hlt
    split
    · push_cast
      exact_mod_cast h99
    · split
      · exact_mod_cast hfle
      · push_cast
        exact_mod_cast h99

/-- Bounds for the severity fold of `RuleEngine.evaluate`:
the result dominates the seed and every element, and is the seed or one of
the elements. -/
theorem foldl_sev_spec (l : List RuleResult) : ∀ (s : Severity),
    sevOrder s ≤ sevOrder (l.foldl
        (fun acc r =>
          if sevOrder r.severity > sevOrder acc then r.severity else acc) s)
      ∧ (∀ r ∈ l, sevOrder r.severity ≤ sevOrder (l.foldl
          (fun acc r =>
            if sevOrder r.severity > sevOrder acc then r.severity else acc) s))
      ∧ ((l.foldl (fun acc r =>
            if sevOrder r.severity > sevOrder acc then r.severity else acc) s) = s
          ∨ ∃ r ∈ l, r.severity = (l.foldl (fun acc r =>
            if sevOrder r.severity > sevOrder acc then r.severity else acc) s)) := by
  induction l with
  | nil =>
    intro s
    exact ⟨le_refl _, by simp, Or.inl rfl⟩
  | cons x xs ih =>
    intro s
    simp only [List.foldl_cons]
    obtain ⟨h1, h2, h3⟩ :=
      ih (if sevOrder x.severity > sevOrder s then x.severity else s)
    refine ⟨?_, ?_, ?_⟩
    · refine le_trans ?_ h1
      split <;> omega
    · intro r hr
      rcases List.mem_cons.mp hr with rfl | hmem
      · refine le_trans ?_ h1
        split <;> omega
      · exact h2 r hmem
    · rcases h3 with heq | ⟨r, hr, hrs⟩
      · rw [heq]
        by_cases hcond : sevOrder x.severity > sevOrder s
        · simp only [if_pos hcond]
          exact Or.inr ⟨x, List.mem_cons_self _ _, rfl⟩
        · simp only [if_neg hcond]
          left
          trivial
      · exact Or.inr ⟨r, List.mem_cons_of_mem _ hr, hrs⟩

/-! ## Claim theorems -/

/-- A benign scenario row used by concrete witnesses. -/
def rowW : Row :=
  { assemblyLine := "HighRange_1", shift := "Shift_A", machineUptime := 90
    inventoryStatus := 85, demandSUVs := 100, workerAvailability := 95
    defectRate := 1, energyConsumption := 500
    semiconductorAvailability := "Available" }

/-- A one-row scenario table used by concrete witnesses. -/
def dfW : ScenarioData := { rows := [rowW] }

/-- An empty context used by concrete witnesses. -/
def ctxW : Context := {}

/-- C1: for every evaluation run on a nonempty table,
`overall_severity` is the maximum severity among `triggered_rules` under
LOW < MEDIUM < HIGH < CRITICAL (it dominates every triggered severity and
is attained by one of them), and equals LOW when `triggered_rules` is
empty. -/
theorem c1_overall_severity_is_max (th : Thresholds) (df : ScenarioData)
    (ctx : Context) (hdf : df.rows ≠ []) :
    ((evaluate th df ctx).triggered_rules = [] →
      (evaluate th df ctx).overall_severity = Severity.LOW)
    ∧ (∀ r ∈ (evaluate th df ctx).triggered_rules,
        sevOrder r.severity ≤ sevOrder (evaluate th df ctx).overall_severity)
    ∧ ((evaluate th df ctx).overall_severity = Severity.LOW
        ∨ ∃ r ∈ (evaluate th df ctx).triggered_rules,
            r.severity = (evaluate th df ctx).overall_severity) := by
  have key : (evaluate th df ctx).overall_severity
      = (evaluate th df ctx).triggered_rules.foldl
          (fun acc r =>
            if sevOrder r.severity > sevOrder acc then r.severity else acc)
          Severity.LOW := rfl
  obtain ⟨_, h2, h3⟩ :=
    foldl_sev_spec (evaluate th df ctx).triggered_rules Severity.LOW
  refine ⟨?_, ?_, ?_⟩
  · intro hempty
    rw [key, hempty]
    rfl
  · intro r hr
    rw [key]
    exact h2 r hr
  · rw [key]
    exact h3

/-- Witness for C1 at a concrete one-row table and empty context. -/
theorem c1_overall_severity_is_max_witness :
    dfW.rows ≠ []
    ∧ (((evaluate {} dfW ctxW).triggered_rules = [] →
          (evaluate {} dfW ctxW).overall_severity = Severity.LOW)
        ∧ (∀ r ∈ (evaluate {} dfW ctxW).triggered_rules,
            sevOrder r.severity
              ≤ sevOrder (evaluate {} dfW ctxW).overall_severity)
        ∧ ((evaluate {} dfW ctxW).overall_severity = Severity.LOW
            ∨ ∃ r ∈ (evaluate {} dfW ctxW).triggered_rules,
                r.severity = (evaluate {} dfW ctxW).overall_severity)) :=
  ⟨by decide, c1_overall_severity_is_max {} dfW ctxW (by decide)⟩

/-- C9: `recommended_actions` has no duplicates, contains exactly the
action tags of the triggered rules, and is ordered by the position of each
tag's first occurrence in the triggered-rule sequence. -/
theorem c9_recommended_actions_dedup (th : Thresholds) (df : ScenarioData)
    (ctx : Context) (hdf : df.rows ≠ []) :
    (evaluate th df ctx).recommended_actions.Nodup
    ∧ (∀ a, a ∈ (evaluate th df ctx).recommended_actions ↔
        ∃ r ∈ (evaluate th df ctx).triggered_rules, r.action = a)
    ∧ (evaluate th df ctx).recommended_actions.Pairwise
        (fun a b =>
          ((evaluate th df ctx).triggered_rules.map (·.action)).indexOf a
            < ((evaluate th df ctx).triggered_rules.map (·.action)).indexOf b) := by
  have key : (evaluate th df ctx).recommended_actions
      = dedupFirst ((evaluate th df ctx).triggered_rules.map (·.action)) := rfl
  refine ⟨?_, ?_, ?_⟩
  · rw [key]
    exact nodup_dedupFirst _
  · intro a
    rw [key, mem_dedupFirst, List.mem_map]
  · rw [key]
    exact dedupFirst_pairwise_indexOf _

/-- Witness for C9 at a concrete one-row table and empty context. -/
theorem c9_recommended_actions_dedup_witness :
    dfW.rows ≠ []
    ∧ ((evaluate {} dfW ctxW).recommended_actions.Nodup
        ∧ (∀ a, a ∈ (evaluate {} dfW ctxW).recommended_actions ↔
            ∃ r ∈ (evaluate {} dfW ctxW).triggered_rules, r.action = a)
        ∧ (evaluate {} dfW ctxW).recommended_actions.Pairwise
            (fun a b =>
              ((evaluate {} dfW ctxW).triggered_rules.map (·.action)).indexOf a
                < ((evaluate {} dfW ctxW).triggered_rules.map
                    (·.action)).indexOf b)) :=
  ⟨by decide, c9_recommended_actions_dedup {} dfW ctxW (by decide)⟩

/-- C10: when the scenario table lacks the `Semiconductor_Availability`
column, the supply-chain check emits no results and no result of the whole
evaluation comes from that check family (the missing column is optional,
not a fatal precondition). -/
theorem c10_supply_chain_optional_column (th : Thresholds) (df : ScenarioData)
    (ctx : Context) (h : df.hasSemiconductorCol = false) :
    checkSupplyChain df = []
    ∧ ∀ r ∈ (evaluate th df ctx).all_results,
        r.rule_name ≠ "Semiconductor Supply Risk" := by
  have hsc : checkSupplyChain df = [] := by
    simp [checkSupplyChain, h]
  refine ⟨hsc, ?_⟩
  intro r hr
  have hall : (evaluate th df ctx).all_results
      = checkMachineHealth th df ++ checkLineBreakdown ctx
        ++ checkDemandSpike th df ++ checkInventory th df
        ++ checkSupplyChain df ++ checkOverload df ctx
        ++ checkWorkforce th df := rfl
  rw [hall, hsc] at hr
  simp only [List.mem_append, List.not_mem_nil, or_false] at hr
  rcases hr with ((((hmh | hbr) | hds) | hin) | hov) | hwf
  · simp only [checkMachineHealth, List.mem_map] at hmh
    obtain ⟨line, _, rfl⟩ := hmh
    simp
  · simp only [checkLineBreakdown, List.mem_flatMap] at hbr
    obtain ⟨ev, _, hmem⟩ := hbr
    by_cases hfe : isFailureEvent ev
    · rw [if_pos hfe] at hmem
      simp only [List.mem_cons, List.not_mem_nil, or_false] at hmem
      rcases hmem with rfl | rfl <;> simp
    · rw [if_neg hfe] at hmem
      simp at hmem
  · simp only [checkDemandSpike, List.mem_singleton] at hds
    subst hds
    simp
  · simp only [checkInventory, List.mem_map] at hin
    obtain ⟨line, _, rfl⟩ := hin
    simp
  · simp only [checkOverload] at hov
    by_cases hlm : (ctx.lineMaster.getD []).isEmpty
    · rw [if_pos hlm] at hov
      simp at hov
    · rw [if_neg hlm] at hov
      simp only [List.mem_filterMap] at hov
      obtain ⟨simName, _, hsome⟩ := hov
      split_ifs at hsome <;>
        (rw [Option.some.injEq] at hsome; subst hsome; simp)
  · simp only [checkWorkforce, List.mem_map] at hwf
    obtain ⟨shift, _, rfl⟩ := hwf
    simp

/-- A one-row scenario table without the semiconductor column, for the
C10 witness. -/
def dfNoSemi : ScenarioData := { rows := [rowW], hasSemiconductorCol := false }

/-- Witness for C10 at a concrete table lacking the semiconductor column. -/
theorem c10_supply_chain_optional_column_witness :
    dfNoSemi.hasSemiconductorCol = false
    ∧ (checkSupplyChain dfNoSemi = []
        ∧ ∀ r ∈ (evaluate {} dfNoSemi ctxW).all_results,
            r.rule_name ≠ "Semiconductor Supply Risk") :=
  ⟨by decide, c10_supply_chain_optional_column {} dfNoSemi ctxW (by decide)⟩

/-- The sample variance of the demand column is nonnegative once at least
two records exist. -/
theorem demandVarS_nonneg (df : ScenarioData) (h2 : 2 ≤ (demands df).length) :
    0 ≤ demandVarS df := by
  unfold demandVarS
  apply div_nonneg
  · apply List.sum_nonneg
    intro x hx
    simp only [List.mem_map] at hx
    obtain ⟨y, -, rfl⟩ := hx
    positivity
  · have : (2 : ℚ) ≤ ((demands df).length : ℚ) := by exact_mod_cast h2
    linarith

/-- C4: with default thresholds (`k = 2`), the demand-spike check emits a
triggered INCREASE_SHIFT result of severity HIGH iff the peak demand
strictly exceeds the mean plus two sample standard deviations
(`std = √(sample variance)`, over ℝ), for any series of at least two
records. -/
theorem c4_demand_spike_iff (df : ScenarioData)
    (h2 : 2 ≤ (demands df).length) :
    (∃ r ∈ checkDemandSpike {} df,
        r.triggered = true ∧ r.action = "INCREASE_SHIFT"
          ∧ r.severity = Severity.HIGH)
      ↔ ((demandPeak df : ℝ)
          > (demandMean df : ℝ) + 2 * Real.sqrt (demandVarS df : ℝ)) := by
  have hv : (0 : ℚ) ≤ demandVarS df := demandVarS_nonneg df h2
  have hvR : (0 : ℝ) ≤ (demandVarS df : ℝ) := by exact_mod_cast hv
  have hlhs : (∃ r ∈ checkDemandSpike {} df,
      r.triggered = true ∧ r.action = "INCREASE_SHIFT"
        ∧ r.severity = Severity.HIGH)
      ↔ demandSpikeFired {} df = true := by
    simp only [checkDemandSpike, List.mem_singleton, exists_eq_left]
    constructor
    · rintro ⟨htrig, -, -⟩
      exact htrig
    · intro hfired
      refine ⟨hfired, trivial, ?_⟩
      show (if demandSpikeFired {} df then Severity.HIGH else Severity.LOW)
        = Severity.HIGH
      rw [hfired]
      rfl
  rw [hlhs]
  unfold demandSpikeFired
  have hsig : ({} : Thresholds).demandSpikeSigma = 2 := rfl
  rw [hsig]
  simp only [Bool.and_eq_true, decide_eq_true_eq]
  constructor
  · rintro ⟨⟨-, hgt⟩, hsq⟩
    have hgtR : (demandMean df : ℝ) < (demandPeak df : ℝ) := by exact_mod_cast hgt
    have hsqR : (4 : ℝ) * (demandVarS df : ℝ)
        < ((demandPeak df : ℝ) - (demandMean df : ℝ)) ^ 2 := by
      have : (2 : ℚ) ^ 2 * demandVarS df
          < (demandPeak df - demandMean df) ^ 2 := hsq
      have hcast : ((2 : ℚ) ^ 2 * demandVarS df : ℚ) = (4 : ℚ) * demandVarS df := by
        norm_num
      rw [hcast] at this
      push_cast
      exact_mod_cast this
    set a : ℝ := (demandPeak df : ℝ) - (demandMean df : ℝ) with hadef
    have ha : 0 < a := by simp [hadef]; linarith
    have hsqrtlt : Real.sqrt (demandVarS df : ℝ) < a / 2 := by
      rw [Real.sqrt_lt' (by linarith : 0 < a / 2)]
      rw [div_pow]
      nlinarith
    have : 2 * Real.sqrt (demandVarS df : ℝ) < a := by linarith
    simp only [hadef] at this
    linarith
  · intro hR
    have hsqrt_nonneg := Real.sqrt_nonneg ((demandVarS df : ℝ))
    have haR : (0 : ℝ) < (demandPeak df : ℝ) - (demandMean df : ℝ) := by
      linarith
    have hgt : demandMean df < demandPeak df := by
      have : (demandMean df : ℝ) < (demandPeak df : ℝ) := by linarith
      exact_mod_cast this
    refine ⟨⟨h2, hgt⟩, ?_⟩
    have hsq_eq : (2 * Real.sqrt (demandVarS df : ℝ)) ^ 2
        = 4 * (demandVarS df : ℝ) := by
      rw [mul_pow, Real.sq_sqrt hvR]
      norm_num
    have hlt : (2 * Real.sqrt (demandVarS df : ℝ)) ^ 2
        < ((demandPeak df : ℝ) - (demandMean df : ℝ)) ^ 2 := by
      apply pow_lt_pow_left _ (by positivity) (by norm_num)
      linarith
    rw [hsq_eq] at hlt
    have hq : (4 : ℚ) * demandVarS df
        < (demandPeak df - demandMean df) ^ 2 := by
      have : (4 : ℝ) * (demandVarS df : ℝ)
          < ((demandPeak df - demandMean df : ℚ) : ℝ) ^ 2 := by
        push_cast
        exact hlt
      exact_mod_cast this
    have : (2 : ℚ) ^ 2 * demandVarS df = 4 * demandVarS df := by norm_num
    rw [this]
    exact hq

/-- A scenario row with zero demand, for the C4 witness. -/
def row0 : Row := { rowW with demandSUVs := 0 }

/-- Nine-record demand series `[0,0,0,0,0,0,0,0,9]` for the C4 witness:
mean 1, sample variance 9 (std 3), peak 9 > 1 + 2·3. -/
def dfC4 : ScenarioData :=
  { rows := [row0, row0, row0, row0, row0, row0, row0, row0,
             { rowW with demandSUVs := 9 }] }

/-- Witness for C4: the spike fires on the concrete series. -/
theorem c4_demand_spike_iff_witness :
    2 ≤ (demands dfC4).length
    ∧ ∃ r ∈ checkDemandSpike {} dfC4,
        r.triggered = true ∧ r.action = "INCREASE_SHIFT"
          ∧ r.severity = Severity.HIGH := by
  refine ⟨by decide, ?_⟩
  apply (c4_demand_spike_iff dfC4 (by decide)).mpr
  have hd : demands dfC4 = [0, 0, 0, 0, 0, 0, 0, 0, 9] := rfl
  have hp : demandPeak dfC4 = 9 := by
    unfold demandPeak
    rw [hd]
    norm_num [qmax, max_def]
  have hm : demandMean dfC4 = 1 := by
    unfold demandMean
    rw [hd]
    norm_num [qmean]
  have hv : demandVarS dfC4 = 9 := by
    unfold demandVarS
    rw [hd, hm]
    norm_num [qmean]
  rw [hp, hm, hv]
  have hsqrt : Real.sqrt ((9 : ℚ) : ℝ) = 3 := by
    push_cast
    rw [show (9 : ℝ) = 3 ^ 2 by norm_num]
    exact Real.sqrt_sq (by norm_num)
  rw [hsqrt]
  push_cast
  norm_num

/-- The report fold collects all checks in order. -/
theorem foldl_reportAdd_checks (l : List ValidationCheck) :
    ∀ rep : ValidationReport,
      (l.foldl reportAdd rep).checks = rep.checks ++ l := by
  induction l with
  | nil => intro rep; simp
  | cons c cs ih =>
    intro rep
    simp only [List.foldl_cons, ih, reportAdd]
    simp

/-- The report fold's overall flag is the conjunction over all checks of
"not a failed error". -/
theorem foldl_reportAdd_overall (l : List ValidationCheck) :
    ∀ rep : ValidationReport,
      (l.foldl reportAdd rep).overall_passed
        = (rep.overall_passed
            && l.all (fun c => !(!c.passed && c.severity == "error"))) := by
  induction l with
  | nil => intro rep; simp
  | cons c cs ih =>
    intro rep
    simp only [List.foldl_cons, ih, reportAdd, List.all_cons]
    rw [Bool.and_assoc]

/-- Evaluation rule for `round2` in the round-down regime. -/
theorem round2_eq_down {q : ℚ} {n : ℤ} (h1 : (n : ℚ) ≤ q * 100)
    (h2 : q * 100 < n + 1/2) : round2 q = n / 100 := by
  unfold round2
  dsimp only
  have hfl : ⌊q * 100⌋ = n := by
    rw [Int.floor_eq_iff]
    constructor
    · exact_mod_cast h1
    · push_cast
      linarith
  rw [hfl, if_pos (by linarith : q * 100 - (n : ℚ) < 1/2)]

/-- The scenario-impact context of the C2 example: capacity 100, OEE 85,
utilization 80, MTTR 4 h, with the claimed units-lost value 22.67. -/
def siC2 : ScenarioImpact :=
  { capacityLost := some 100, oeeUsed := some 85, utilizationUsed := some 80
    mttrHrs := some 4, actualUnitsLost := some (2267/100) }

/-- Context carrying `siC2`. -/
def ctxC2 : Context := { scenarioImpact := some siC2 }

/-- The validator recomputes 100 × 0.85 × 0.80 × (4/24) = 11.33 (2 dp). -/
theorem unitsLostExpected_siC2 : unitsLostExpected siC2 = 1133/100 := by
  unfold unitsLostExpected siC2
  dsimp only
  rw [show ((some (100:ℚ)).getD 0 * ((some (85:ℚ)).getD 85 / 100)
      * ((some (80:ℚ)).getD 100 / 100) * ((some (4:ℚ)).getD 0 / 24)) = 34/3
    from by norm_num]
  rw [round2_eq_down (n := 1133) (by norm_num) (by norm_num)]
  norm_num

/-- With empty rule output, empty ML output and no recommendations, the
validator report consists of the context check followed by the units-lost
checks, and `overall_passed` is the conjunction over them. -/
theorem validateAnalysis_minimal (ctx : Context) :
    (validateAnalysis {} {} [] ctx).checks
        = contextCheck ctx :: unitsLostChecks ctx
    ∧ (validateAnalysis {} {} [] ctx).overall_passed
        = (contextCheck ctx :: unitsLostChecks ctx).all
            (fun c => !(!c.passed && c.severity == "error")) := by
  have h1 : ruleChecks {} = [] := rfl
  have h2 : delayRangeChecks {} = [] := rfl
  have h4 : recChecks [] = [] := rfl
  unfold validateAnalysis
  dsimp only
  rw [h1, h2, h4]
  rw [foldl_reportAdd_checks, foldl_reportAdd_overall]
  constructor
  · simp [breakdownRangeChecks]
  · simp [breakdownRangeChecks]

/-- A context carrying the C2 scenario-impact numbers with supplied
units-lost value `a`. -/
def ctxUnits (a : ℚ) : Context :=
  { scenarioImpact := some { siC2 with actualUnitsLost := some a } }

/-- The units-lost check produced for the C2 scenario-impact context with
a supplied units-lost value `a`. -/
theorem unitsLostChecks_c2 (a : ℚ) :
    unitsLostChecks (ctxUnits a)
      = [{ name := "Units lost formula"
           passed := decide (|1133/100 - a| < (1/10 : ℚ))
           detail := "expected vs supplied units lost"
           severity := if decide (|1133/100 - a| < (1/10 : ℚ)) = true then "info"
             else "error" }] := by
  have hsi : (ctxUnits a).scenarioImpact.getD {}
      = { siC2 with actualUnitsLost := some a } := rfl
  have hexp : unitsLostExpected { siC2 with actualUnitsLost := some a }
      = 1133/100 := unitsLostExpected_siC2
  have hact : ({ siC2 with actualUnitsLost := some a }
      : ScenarioImpact).actualUnitsLost.getD 0 = a := rfl
  have hcond :
      (({ siC2 with actualUnitsLost := some a } : ScenarioImpact).actualUnitsLost.isSome
        && truthyQ ({ siC2 with actualUnitsLost := some a } : ScenarioImpact).capacityLost
        && truthyQ ({ siC2 with actualUnitsLost := some a } : ScenarioImpact).mttrHrs)
      = true := rfl
  unfold unitsLostChecks
  dsimp only
  rw [hsi, hcond]
  rw [if_pos (rfl : true = true)]
  rw [hexp, hact]

/-- C2 counterexample: with capacity 100, OEE 85, utilization 80 and
MTTR 4 h the validator recomputes 11.33 units lost (not 22.67), so the
claimed supplied value 22.67 FAILS the tolerance check and a failed
error-severity check is added, contradicting the claim. -/
theorem c2_formula_check_cex :
    unitsLostExpected { siC2 with actualUnitsLost := some (2267/100) } = 1133/100
    ∧ (∃ c ∈ (validateAnalysis {} {} [] (ctxUnits (2267/100))).checks,
        c.passed = false ∧ c.severity = "error")
    ∧ (validateAnalysis {} {} [] (ctxUnits (2267/100))).overall_passed = false := by
  obtain ⟨hch, hov⟩ := validateAnalysis_minimal (ctxUnits (2267/100))
  have hul := unitsLostChecks_c2 (2267/100)
  have hdec : decide (|1133/100 - (2267/100 : ℚ)| < (1/10 : ℚ)) = false := by
    rw [decide_eq_false_iff_not]
    rw [show (1133/100 : ℚ) - 2267/100 = -(1134/100) by norm_num]
    rw [abs_neg, abs_of_nonneg (by norm_num : (0:ℚ) ≤ 1134/100)]
    norm_num
  refine ⟨unitsLostExpected_siC2, ?_, ?_⟩
  · rw [hch, hul, hdec]
    refine ⟨_, List.mem_cons_of_mem _ (List.mem_singleton_self _), rfl, ?_⟩
    simp
  · rw [hov, hul, hdec]
    simp [contextCheck, ctxUnits]

/-- C2 amended: the validator-recomputed units lost for capacity 100,
OEE 85, utilization 80, MTTR 4 h is 100×0.85×0.80×(4/24) ≈ 11.33, so a
supplied value of 11.33 passes the formula check within tolerance (no
failed error check, report passes), while supplied values of 22.67 or 30
produce a failed error-severity check and a failed report. -/
theorem c2_units_lost_amended :
    unitsLostExpected { siC2 with actualUnitsLost := some (1133/100) } = 1133/100
    ∧ (∀ c ∈ (validateAnalysis {} {} [] (ctxUnits (1133/100))).checks,
        ¬(c.passed = false ∧ c.severity = "error"))
    ∧ (validateAnalysis {} {} [] (ctxUnits (1133/100))).overall_passed = true
    ∧ (∃ c ∈ (validateAnalysis {} {} [] (ctxUnits 30)).checks,
        c.passed = false ∧ c.severity = "error")
    ∧ (validateAnalysis {} {} [] (ctxUnits 30)).overall_passed = false := by
  obtain ⟨hch1, hov1⟩ := validateAnalysis_minimal (ctxUnits (1133/100))
  obtain ⟨hch2, hov2⟩ := validateAnalysis_minimal (ctxUnits 30)
  have hul1 := unitsLostChecks_c2 (1133/100)
  have hul2 := unitsLostChecks_c2 30
  have hdec1 : decide (|1133/100 - (1133/100 : ℚ)| < (1/10 : ℚ)) = true := by
    rw [decide_eq_true_eq]
    norm_num
  have hdec2 : decide (|1133/100 - (30 : ℚ)| < (1/10 : ℚ)) = false := by
    rw [decide_eq_false_iff_not]
    rw [show (1133/100 : ℚ) - 30 = -(1867/100) by norm_num]
    rw [abs_neg, abs_of_nonneg (by norm_num : (0:ℚ) ≤ 1867/100)]
    norm_num
  refine ⟨unitsLostExpected_siC2, ?_, ?_, ?_, ?_⟩
  · rw [hch1, hul1, hdec1]
    intro c hc
    rcases List.mem_cons.mp hc with rfl | hc
    · simp [contextCheck, ctxUnits]
    · rcases List.mem_singleton.mp hc with rfl
      simp
  · rw [hov1, hul1, hdec1]
    simp [contextCheck, ctxUnits]
  · rw [hch2, hul2, hdec2]
    refine ⟨_, List.mem_cons_of_mem _ (List.mem_singleton_self _), rfl, ?_⟩
    simp
  · rw [hov2, hul2, hdec2]
    simp [contextCheck, ctxUnits]

/-- `clampQ 0 1` lands in the unit interval. -/
theorem clampQ01_bounds (x : ℚ) : 0 ≤ clampQ 0 1 x ∧ clampQ 0 1 x ≤ 1 :=
  ⟨le_max_left _ _, max_le (by norm_num) (min_le_left _ _)⟩

/-- `round2` keeps the unit interval. -/
theorem round2_unit {x : ℚ} (h0 : 0 ≤ x) (h1 : x ≤ 1) :
    0 ≤ round2 x ∧ round2 x ≤ 1 :=
  ⟨round2_nonneg h0, round2_le_one h1⟩

/-- Heuristic breakdown probabilities lie in [0, 1]. -/
theorem heuristicBreakdown_bounds (df : ScenarioData) :
    ∀ p ∈ heuristicBreakdown df, 0 ≤ p.probability ∧ p.probability ≤ 1 := by
  intro p hp
  simp only [heuristicBreakdown, List.mem_map] at hp
  obtain ⟨line, -, rfl⟩ := hp
  exact round2_unit (clampQ01_bounds _).1 (clampQ01_bounds _).2

/-- Heuristic delay risk scores lie in [0, 1]. -/
theorem heuristicDelayPerLine_bounds (df : ScenarioData) :
    ∀ p ∈ heuristicDelayPerLine df, 0 ≤ p.risk_score ∧ p.risk_score ≤ 1 := by
  intro p hp
  simp only [heuristicDelayPerLine, List.mem_map] at hp
  obtain ⟨line, -, rfl⟩ := hp
  refine round2_unit ?_ (min_le_left _ _)
  apply le_min (by norm_num)
  split_ifs <;> norm_num

/-- Trained breakdown probabilities lie in [0, 1] whenever the classifier
output does (sklearn's `predict_proba` guarantees this). -/
theorem predictBreakdown_bounds (clf : ℚ × ℚ × ℚ × ℚ → ℚ)
    (hclf : ∀ x, 0 ≤ clf x ∧ clf x ≤ 1) (df : ScenarioData) :
    ∀ p ∈ predictBreakdown clf df, 0 ≤ p.probability ∧ p.probability ≤ 1 := by
  intro p hp
  simp only [predictBreakdown, List.mem_map] at hp
  obtain ⟨line, -, rfl⟩ := hp
  exact round2_unit (hclf _).1 (hclf _).2

/-- Trained delay risk scores lie in [0, 1] for every regressor output,
thanks to the `max(0, min(1, 1 - kpi/10))` clamp. -/
theorem predictDelayPerLine_bounds (reg : ℚ × ℚ × ℚ × ℚ → ℚ)
    (df : ScenarioData) :
    ∀ p ∈ predictDelayPerLine reg df, 0 ≤ p.risk_score ∧ p.risk_score ≤ 1 := by
  intro p hp
  simp only [predictDelayPerLine, List.mem_map] at hp
  obtain ⟨line, -, rfl⟩ := hp
  exact round2_unit (le_max_left _ _)
    (max_le (by norm_num) (min_le_left _ _))

/-- `max(list, key=risk_score)` returns an element of the list. -/
theorem maxByRiskScore_mem :
    ∀ (l : List DelayPrediction) (p : DelayPrediction),
      maxByRiskScore l = some p → p ∈ l := by
  intro l
  induction l with
  | nil => intro p h; simp [maxByRiskScore] at h
  | cons x xs ih =>
    intro p h
    simp only [maxByRiskScore] at h
    cases hmax : maxByRiskScore xs with
    | none =>
      rw [hmax] at h
      rw [Option.some.injEq] at h
      subst h
      exact List.mem_cons_self _ _
    | some m =>
      rw [hmax] at h
      dsimp only at h
      by_cases hcmp : m.risk_score > x.risk_score
      · rw [if_pos hcmp, Option.some.injEq] at h
        subst h
        exact List.mem_cons_of_mem _ (ih _ hmax)
      · rw [if_neg hcmp, Option.some.injEq] at h
        subst h
        exact List.mem_cons_self _ _

/-- C3: every breakdown probability and delay risk score produced by
`MLModelManager.predict` lies in [0, 1], in trained as well as
heuristic-fallback mode, provided the trained classifier's
`predict_proba` output is a probability (which sklearn guarantees);
the delay regressor output is unconstrained. -/
theorem c3_predictions_in_unit_interval (df : ScenarioData) (ctx : Context)
    (m : Models)
    (hm : ∀ clf, m.breakdownModel = some clf → ∀ x, 0 ≤ clf x ∧ clf x ≤ 1) :
    (∀ p ∈ (mlPredict m df ctx).breakdown_predictions,
        0 ≤ p.probability ∧ p.probability ≤ 1)
    ∧ (∀ p ∈ (mlPredict m df ctx).delay_predictions,
        0 ≤ p.risk_score ∧ p.risk_score ≤ 1)
    ∧ (∀ p, (mlPredict m df ctx).delay_prediction = some p →
        0 ≤ p.risk_score ∧ p.risk_score ≤ 1) := by
  by_cases ht : m.trained
  · cases hb : m.breakdownModel with
    | none =>
      cases hd : m.delayModel with
      | none =>
        simp only [mlPredict, ht, hb, hd, Bool.not_true, Bool.false_eq_true,
          if_false]
        exact ⟨heuristicBreakdown_bounds df, heuristicDelayPerLine_bounds df,
          fun p hp =>
            heuristicDelayPerLine_bounds df p (maxByRiskScore_mem _ p hp)⟩
      | some reg =>
        simp only [mlPredict, ht, hb, hd, Bool.not_true, Bool.false_eq_true,
          if_false]
        exact ⟨heuristicBreakdown_bounds df, predictDelayPerLine_bounds reg df,
          fun p hp =>
            predictDelayPerLine_bounds reg df p (maxByRiskScore_mem _ p hp)⟩
    | some clf =>
      have hclf := hm clf hb
      cases hd : m.delayModel with
      | none =>
        simp only [mlPredict, ht, hb, hd, Bool.not_true, Bool.false_eq_true,
          if_false]
        exact ⟨predictBreakdown_bounds clf hclf df,
          heuristicDelayPerLine_bounds df,
          fun p hp =>
            heuristicDelayPerLine_bounds df p (maxByRiskScore_mem _ p hp)⟩
      | some reg =>
        simp only [mlPredict, ht, hb, hd, Bool.not_true, Bool.false_eq_true,
          if_false]
        exact ⟨predictBreakdown_bounds clf hclf df,
          predictDelayPerLine_bounds reg df,
          fun p hp =>
            predictDelayPerLine_bounds reg df p (maxByRiskScore_mem _ p hp)⟩
  · rw [Bool.not_eq_true] at ht
    simp only [mlPredict, ht, Bool.not_false, if_true]
    exact ⟨heuristicBreakdown_bounds df, heuristicDelayPerLine_bounds df,
      fun p hp => heuristicDelayPerLine_bounds df p (maxByRiskScore_mem _ p hp)⟩

/-- A model pair for the C3 witness: constant classifier probability 1/2,
constant regressor output 0. -/
def modelsW : Models :=
  { breakdownModel := some (fun _ => 1/2)
    delayModel := some (fun _ => 0)
    trained := true }

/-- Witness for C3 at a concrete table, context and trained model pair. -/
theorem c3_predictions_in_unit_interval_witness :
    (∀ clf, modelsW.breakdownModel = some clf → ∀ x, 0 ≤ clf x ∧ clf x ≤ 1)
    ∧ ((∀ p ∈ (mlPredict modelsW dfW ctxW).breakdown_predictions,
          0 ≤ p.probability ∧ p.probability ≤ 1)
        ∧ (∀ p ∈ (mlPredict modelsW dfW ctxW).delay_predictions,
            0 ≤ p.risk_score ∧ p.risk_score ≤ 1)
        ∧ (∀ p, (mlPredict modelsW dfW ctxW).delay_prediction = some p →
            0 ≤ p.risk_score ∧ p.risk_score ≤ 1)) := by
  have hm : ∀ clf, modelsW.breakdownModel = some clf →
      ∀ x, 0 ≤ clf x ∧ clf x ≤ 1 := by
    intro clf hclf x
    have : clf = fun _ => (1/2 : ℚ) := by
      simpa [modelsW] using hclf.symm
    subst this
    norm_num
  exact ⟨hm, c3_predictions_in_unit_interval dfW ctxW modelsW hm⟩

/-- A row with machine uptime 72 %, giving heuristic breakdown probability
(100−72)/50 = 0.56. -/
def row72 : Row := { rowW with machineUptime := 72 }

/-- One-row table with uptime 72 % for the C6 counterexample. -/
def df72 : ScenarioData := { rows := [row72] }

/-- C6 counterexample: in heuristic-fallback mode a probability of 0.56
is bucketed HIGH (the heuristic uses 0.25/0.5 boundaries), whereas the
claimed 0.3/0.6 bucketing would label it MEDIUM. -/
theorem c6_heuristic_bucket_cex :
    ∃ p ∈ heuristicBreakdown df72,
      p.probability = 14/25 ∧ p.risk_level = "HIGH"
        ∧ bucket36 p.probability = "MEDIUM" := by
  have hu : qmean ((useRows df72 "HighRange_1").map (·.machineUptime)) = 72 := by
    rw [show useRows df72 "HighRange_1" = [row72] from rfl]
    norm_num [qmean, row72, rowW]
  have hclamp : clampQ 0 1 ((100 - (72 : ℚ)) / 50) = 14/25 := by
    unfold clampQ
    rw [min_eq_right (by norm_num : ((100 - (72:ℚ)) / 50) ≤ 1),
      max_eq_right (by norm_num : (0:ℚ) ≤ (100 - (72:ℚ)) / 50)]
    norm_num
  have hr2 : round2 (14/25 : ℚ) = 14/25 := by
    rw [round2_eq_down (n := 56) (by norm_num) (by norm_num)]
    norm_num
  unfold heuristicBreakdown
  refine ⟨_, List.mem_map.mpr ⟨"HighRange_1", by decide, rfl⟩, ?_, ?_, ?_⟩
  · dsimp only
    rw [hu, hclamp, hr2]
  · dsimp only
    rw [hu, hclamp]
    unfold heuristicBreakdownBucket
    rw [if_pos (by norm_num : (14/25 : ℚ) > 1/2)]
  · dsimp only
    rw [hu, hclamp, hr2]
    unfold bucket36
    rw [if_neg (by norm_num : ¬((14/25 : ℚ) > 6/10)),
      if_pos (by norm_num : (14/25 : ℚ) > 3/10)]

/-- C6 amended: trained-mode breakdown predictions bucket the raw
classifier probability at 0.3/0.6 (`bucket36`), while heuristic-fallback
predictions bucket the raw heuristic probability at 0.25/0.5
(`heuristicBreakdownBucket`); in both modes the stored probability is the
raw value rounded to two decimals, and the bucket is computed from the
unrounded value. -/
theorem c6_bucket_amended (df : ScenarioData) (clf : ℚ × ℚ × ℚ × ℚ → ℚ) :
    (∀ p ∈ predictBreakdown clf df,
        p.probability = round2 (clf (breakdownFeatures df p.line))
          ∧ p.risk_level = bucket36 (clf (breakdownFeatures df p.line)))
    ∧ (∀ p ∈ heuristicBreakdown df,
        p.probability = round2 (heuristicBreakdownRaw df p.line)
          ∧ p.risk_level
              = heuristicBreakdownBucket (heuristicBreakdownRaw df p.line)) := by
  constructor
  · intro p hp
    simp only [predictBreakdown, List.mem_map] at hp
    obtain ⟨line, -, rfl⟩ := hp
    exact ⟨rfl, rfl⟩
  · intro p hp
    simp only [heuristicBreakdown, List.mem_map] at hp
    obtain ⟨line, -, rfl⟩ := hp
    exact ⟨rfl, rfl⟩

/-- Membership through descending insertion. -/
theorem mem_insertByScoreDesc (r : SupplierRisk) :
    ∀ (l : List SupplierRisk) (x : SupplierRisk),
      x ∈ insertByScoreDesc r l ↔ x = r ∨ x ∈ l := by
  intro l
  induction l with
  | nil => intro x; simp [insertByScoreDesc]
  | cons y ys ih =>
    intro x
    unfold insertByScoreDesc
    split
    · simp
    · simp only [List.mem_cons, ih]
      tauto

/-- Descending insertion is a permutation of consing. -/
theorem insertByScoreDesc_perm (r : SupplierRisk) :
    ∀ l : List SupplierRisk, List.Perm (insertByScoreDesc r l) (r :: l) := by
  intro l
  induction l with
  | nil => simp [insertByScoreDesc]
  | cons y ys ih =>
    unfold insertByScoreDesc
    split
    · exact List.Perm.refl _
    · exact (List.Perm.cons y ih).trans (List.Perm.swap r y ys)

/-- The stable descending sort is a permutation of its input. -/
theorem sortByScoreDesc_perm :
    ∀ l : List SupplierRisk, List.Perm (sortByScoreDesc l) l := by
  intro l
  induction l with
  | nil => exact List.Perm.refl _
  | cons x xs ih =>
    unfold sortByScoreDesc
    exact (insertByScoreDesc_perm x (sortByScoreDesc xs)).trans
      (List.Perm.cons x ih)

/-- Descending insertion preserves descending order. -/
theorem insertByScoreDesc_pairwise (r : SupplierRisk) :
    ∀ l : List SupplierRisk,
      l.Pairwise (fun a b => b.score ≤ a.score) →
      (insertByScoreDesc r l).Pairwise (fun a b => b.score ≤ a.score) := by
  intro l
  induction l with
  | nil => intro _; simp [insertByScoreDesc]
  | cons y ys ih =>
    intro h
    rcases List.pairwise_cons.mp h with ⟨hy, hys⟩
    unfold insertByScoreDesc
    split
    · rename_i hcmp
      refine List.Pairwise.cons ?_ h
      intro b hb
      rcases List.mem_cons.mp hb with rfl | hb
      · exact hcmp
      · exact le_trans (hy b hb) hcmp
    · rename_i hcmp
      push_neg at hcmp
      refine List.Pairwise.cons ?_ (ih hys)
      intro b hb
      rcases (mem_insertByScoreDesc r ys b).mp hb with rfl | hb
      · exact le_of_lt hcmp
      · exact hy b hb

/-- The stable descending sort yields a descending list. -/
theorem sortByScoreDesc_pairwise :
    ∀ l : List SupplierRisk,
      (sortByScoreDesc l).Pairwise (fun a b => b.score ≤ a.score) := by
  intro l
  induction l with
  | nil => simp [sortByScoreDesc]
  | cons x xs ih =>
    unfold sortByScoreDesc
    exact insertByScoreDesc_pairwise x _ ih

/-- C7: every supplier-risk entry's score is
`round(clamp(reliability − 1.5 × lead_time_days, 0, 100), 2)` with band
LOW when the clamped score is ≥ 80, MEDIUM when ≥ 60, HIGH otherwise; the
returned list is sorted descending by score; and reliability 90 with lead
time 10 days yields score 75 and band MEDIUM. -/
theorem c7_supplier_risk_formula (ctx : Context) :
    (∀ r ∈ heuristicSupplierRisk ctx,
        r.score = round2 (clampQ 0 100
            (r.reliability - (r.lead_time_days : ℚ) * (3/2)))
          ∧ r.risk_level
              = (if clampQ 0 100 (r.reliability - (r.lead_time_days : ℚ) * (3/2))
                    ≥ 80 then "LOW"
                 else if clampQ 0 100
                     (r.reliability - (r.lead_time_days : ℚ) * (3/2)) ≥ 60
                   then "MEDIUM" else "HIGH"))
    ∧ (heuristicSupplierRisk ctx).Pairwise (fun a b => b.score ≤ a.score)
    ∧ supplierRiskOf { reliability := some 90, leadTimeDays := some 10 }
        = { supplier_name := "Unknown", score := 75, risk_level := "MEDIUM"
            lead_time_days := 10, reliability := 90 } := by
  refine ⟨?_, sortByScoreDesc_pairwise _, ?_⟩
  · intro r hr
    have hr' : r ∈ (ctx.suppliers.take 15).map supplierRiskOf :=
      (sortByScoreDesc_perm _).mem_iff.mp hr
    simp only [List.mem_map] at hr'
    obtain ⟨s, -, rfl⟩ := hr'
    exact ⟨rfl, rfl⟩
  · have hval : ((90 : ℚ) - ((10 : ℤ) : ℚ) * (3/2)) = 75 := by
      push_cast
      norm_num
    have hclamp : clampQ 0 100 ((90 : ℚ) - ((10 : ℤ) : ℚ) * (3/2)) = 75 := by
      rw [hval]
      unfold clampQ
      rw [min_eq_right (by norm_num : (75 : ℚ) ≤ 100),
        max_eq_right (by norm_num : (0 : ℚ) ≤ 75)]
    have hr2 : round2 (75 : ℚ) = 75 := by
      rw [round2_eq_down (n := 7500) (by norm_num) (by norm_num)]
      norm_num
    unfold supplierRiskOf
    dsimp only [Option.getD]
    rw [hclamp, hr2]
    rw [if_neg (by norm_num : ¬((75 : ℚ) ≥ 80)),
      if_pos (by norm_num : (75 : ℚ) ≥ 60)]

/-- A context with 16 (default-valued) supplier records. -/
def ctx16 : Context := { suppliers := List.replicate 16 {} }

/-- C8 counterexample: with 16 suppliers in the context only 15 risk
entries are produced (`suppliers[:15]`), so "one entry per supplier
regardless of how many are supplied" fails. -/
theorem c8_one_per_supplier_cex :
    ctx16.suppliers.length = 16
    ∧ (heuristicSupplierRisk ctx16).length = 15 := by
  constructor
  · simp [ctx16]
  · unfold heuristicSupplierRisk
    rw [(sortByScoreDesc_perm _).length_eq, List.length_map,
      List.length_take]
    simp [ctx16]

/-- C8 amended: the supplier-risk output is (a permutation of) one entry
per supplier among the FIRST 15 supplier records — so exactly one entry
per supplier whenever at most 15 are supplied, and exactly 15 otherwise. -/
theorem c8_one_per_supplier_take15 (ctx : Context) :
    List.Perm (heuristicSupplierRisk ctx) ((ctx.suppliers.take 15).map supplierRiskOf)
    ∧ (heuristicSupplierRisk ctx).length = min ctx.suppliers.length 15 := by
  refine ⟨sortByScoreDesc_perm _, ?_⟩
  unfold heuristicSupplierRisk
  rw [(sortByScoreDesc_perm _).length_eq, List.length_map, List.length_take]
  omega

/-- `Nat.digitChar` is injective below 10. -/
theorem digitChar_inj_lt10 :
    ∀ a, a < 10 → ∀ b, b < 10 → Nat.digitChar a = Nat.digitChar b → a = b := by
  decide

/-- Mapping `Nat.digitChar` over digit lists is injective. -/
theorem map_digitChar_inj :
    ∀ (l1 l2 : List ℕ), (∀ x ∈ l1, x < 10) → (∀ x ∈ l2, x < 10) →
      l1.map Nat.digitChar = l2.map Nat.digitChar → l1 = l2 := by
  intro l1
  induction l1 with
  | nil =>
    intro l2 _ _ h
    cases l2 with
    | nil => rfl
    | cons b bs => simp at h
  | cons a as ih =>
    intro l2 h1 h2 h
    cases l2 with
    | nil => simp at h
    | cons b bs =>
      simp only [List.map_cons, List.cons.injEq] at h
      have hab : a = b :=
        digitChar_inj_lt10 a (h1 a (List.mem_cons_self _ _))
          b (h2 b (List.mem_cons_self _ _)) h.1
      subst hab
      rw [ih bs (fun x hx => h1 x (List.mem_cons_of_mem _ hx))
        (fun x hx => h2 x (List.mem_cons_of_mem _ hx)) h.2]

/-- A nonzero number's decimal string is never `"0"`. -/
theorem natDec_eq_zero_str {n : ℕ} (h : natDec n = "0") : n = 0 := by
  by_contra hn
  rw [natDec, if_neg hn] at h
  have hd : (Nat.digits 10 n).reverse.map Nat.digitChar = ['0'] :=
    congrArg String.data h
  have hlen := congrArg List.length hd
  simp only [List.length_map, List.length_reverse, List.length_singleton] at hlen
  obtain ⟨d, hdig⟩ := List.length_eq_one.mp hlen
  rw [hdig] at hd
  simp only [List.reverse_singleton, List.map_cons, List.map_nil,
    List.cons.injEq] at hd
  have hdlt : d < 10 := Nat.digits_lt_base (by norm_num)
    (by rw [hdig]; exact List.mem_singleton_self _)
  have hd0 : d = 0 :=
    digitChar_inj_lt10 d hdlt 0 (by norm_num) (by simpa using hd.1)
  have hof := Nat.ofDigits_digits 10 n
  rw [hdig, hd0] at hof
  simp [Nat.ofDigits] at hof
  exact hn hof.symm

/-- The decimal representation is injective. -/
theorem natDec_inj : Function.Injective natDec := by
  intro m n h
  by_cases hm : m = 0
  · subst hm
    have : natDec n = "0" := by
      rw [← h, natDec, if_pos rfl]
    exact (natDec_eq_zero_str this).symm
  · by_cases hn : n = 0
    · subst hn
      have : natDec m = "0" := by
        rw [h, natDec, if_pos rfl]
      exact natDec_eq_zero_str this
    · rw [natDec, if_neg hm, natDec, if_neg hn] at h
      have hd : (Nat.digits 10 m).reverse.map Nat.digitChar
          = (Nat.digits 10 n).reverse.map Nat.digitChar :=
        congrArg String.data h
      have hrev : (Nat.digits 10 m).reverse = (Nat.digits 10 n).reverse :=
        map_digitChar_inj _ _
          (fun x hx => Nat.digits_lt_base (by norm_num) (List.mem_reverse.mp hx))
          (fun x hx => Nat.digits_lt_base (by norm_num) (List.mem_reverse.mp hx))
          hd
      have hdig : Nat.digits 10 m = Nat.digits 10 n := List.reverse_inj.mp hrev
      have := Nat.ofDigits_digits 10 m
      rw [hdig, Nat.ofDigits_digits] at this
      exact this.symm

/-- The string of a number below ten never equals the string of a number
of ten or more prefixed differently: the two-digit padding is injective. -/
theorem pad2_inj : Function.Injective pad2 := by
  have key : ∀ a, a < 10 → ∀ b, ¬b < 10 → "0" ++ natDec a ≠ natDec b := by
    intro a ha b hb hcon
    have hbne : b ≠ 0 := by omega
    have hb_eq : natDec b
        = ⟨(Nat.digits 10 b).reverse.map Nat.digitChar⟩ := by
      rw [natDec, if_neg hbne]
    have hd := congrArg String.data hcon
    rw [String.data_append, hb_eq] at hd
    have hd2 : ('0' :: (natDec a).data)
        = (Nat.digits 10 b).reverse.map Nat.digitChar := by
      simpa using hd
    have hhead := congrArg List.head? hd2
    have hne : Nat.digits 10 b ≠ [] := Nat.digits_ne_nil_iff_ne_zero.mpr hbne
    rw [List.head?_map, List.head?_reverse] at hhead
    rw [List.getLast?_eq_getLast_of_ne_nil hne] at hhead
    have hlast_lt : (Nat.digits 10 b).getLast hne < 10 :=
      Nat.digits_lt_base (by norm_num) (List.getLast_mem hne)
    have hlast_ne : (Nat.digits 10 b).getLast hne ≠ 0 :=
      Nat.getLast_digit_ne_zero 10 hbne
    have hchar : ('0' : Char) = Nat.digitChar ((Nat.digits 10 b).getLast hne) := by
      have : some ('0' : Char)
          = some (Nat.digitChar ((Nat.digits 10 b).getLast hne)) := by
        simpa using hhead
      exact Option.some.inj this
    have : (0 : ℕ) = (Nat.digits 10 b).getLast hne :=
      digitChar_inj_lt10 0 (by norm_num) _ hlast_lt hchar
    exact hlast_ne this.symm
  intro a b h
  by_cases ha : a < 10
  · by_cases hb : b < 10
    · rw [pad2, if_pos ha, pad2, if_pos hb] at h
      have hd := congrArg String.data h
      rw [String.data_append, String.data_append] at hd
      have : (natDec a).data = (natDec b).data := by
        simpa using hd
      exact natDec_inj (String.ext this)
    · rw [pad2, if_pos ha, pad2, if_neg hb] at h
      exact absurd h (key a ha b hb)
  · by_cases hb : b < 10
    · rw [pad2, if_neg ha, pad2, if_pos hb] at h
      exact absurd h.symm (key b hb a ha)
    · rw [pad2, if_neg ha, pad2, if_neg hb] at h
      exact natDec_inj h

/-- For a fixed run id, the decision-id string determines the counter. -/
theorem mkDecisionId_inj (runId : String) :
    Function.Injective (mkDecisionId runId) := by
  intro a b h
  unfold mkDecisionId at h
  have hd := congrArg String.data h
  simp only [String.data_append] at hd
  have h1 := List.append_cancel_left hd
  exact pad2_inj (String.ext h1)

/-- The decision-log fold appends one entry per recommendation, numbering
from the length of the seed log. -/
theorem fromAnalysis_fold_entries (runId ts scenario : String)
    (ro : RuleEngineOutput) (ml : MLPredictions) (ctx : Context) :
    ∀ (recs : List Rec) (L : DecisionLog),
      (recs.foldl (fromAnalysisStep runId ts scenario ro ml ctx) L).entries
        = L.entries ++ (List.enumFrom L.entries.length recs).map
            (fun p => buildEntry runId ts scenario ro ml ctx p.1 p.2) := by
  intro recs
  induction recs with
  | nil => intro L; simp
  | cons r rs ih =>
    intro L
    rw [List.foldl_cons, ih]
    show (L.entries ++ [buildEntry runId ts scenario ro ml ctx L.entries.length r])
        ++ (List.enumFrom (L.entries
            ++ [buildEntry runId ts scenario ro ml ctx L.entries.length r]).length
          rs).map (fun p => buildEntry runId ts scenario ro ml ctx p.1 p.2) = _
    rw [List.length_append, List.length_singleton, List.enumFrom]
    rw [List.map_cons, List.append_assoc, List.singleton_append]

/-- Mapping a function of the index over `enumFrom` is a map over the
index range. -/
theorem enumFrom_map_fst {β γ : Type _} (g : ℕ → γ) :
    ∀ (l : List β) (n : ℕ),
      (List.enumFrom n l).map (fun p => g p.1)
        = (List.range' n l.length).map g := by
  intro l
  induction l with
  | nil => intro n; simp
  | cons x xs ih =>
    intro n
    rw [List.enumFrom, List.map_cons, List.length_cons, List.range',
      List.map_cons, ih (n + 1)]

/-- C5: `from_analysis` returns (without raising — it is a total function
on well-typed recommendation records) a log with exactly one entry per
input recommendation in input order (entry `i` is built from
recommendation `i`), whose decision-id strings carry the strictly
increasing counters 1..n and are pairwise distinct. -/
theorem c5_decision_log_entries (runId ts scenario : String)
    (ro : RuleEngineOutput) (ml : MLPredictions) (ctx : Context)
    (recs : List Rec) :
    (fromAnalysis runId ts scenario ro ml recs ctx).entries.length = recs.length
    ∧ (fromAnalysis runId ts scenario ro ml recs ctx).entries
        = (List.enumFrom 0 recs).map
            (fun p => buildEntry runId ts scenario ro ml ctx p.1 p.2)
    ∧ ((fromAnalysis runId ts scenario ro ml recs ctx).entries.map
          (·.decision_id))
        = (List.range recs.length).map (fun i => mkDecisionId runId (i + 1))
    ∧ ((fromAnalysis runId ts scenario ro ml recs ctx).entries.map
          (·.decision_id)).Nodup := by
  have hfold := fromAnalysis_fold_entries runId ts scenario ro ml ctx recs
    { entries := [], run_id := runId, run_timestamp := ts, scenario := scenario }
  have hentries : (fromAnalysis runId ts scenario ro ml recs ctx).entries
      = (List.enumFrom 0 recs).map
          (fun p => buildEntry runId ts scenario ro ml ctx p.1 p.2) := by
    rw [fromAnalysis, hfold]
    simp
  have hids : ((fromAnalysis runId ts scenario ro ml recs ctx).entries.map
      (·.decision_id))
      = (List.range recs.length).map (fun i => mkDecisionId runId (i + 1)) := by
    rw [hentries, List.map_map]
    have : ((fun e => e.decision_id)
        ∘ fun p : ℕ × Rec => buildEntry runId ts scenario ro ml ctx p.1 p.2)
        = fun p : ℕ × Rec => mkDecisionId runId (p.1 + 1) := rfl
    rw [this, enumFrom_map_fst (fun i => mkDecisionId runId (i + 1)) recs 0,
      List.range_eq_range']
  refine ⟨?_, hentries, hids, ?_⟩
  · rw [hentries, List.length_map, List.enumFrom_length]
    
  · rw [hids]
    apply List.Nodup.map
    · intro i j hij
      have := mkDecisionId_inj runId hij
      omega
    · exact List.nodup_range _

end Capstone
